import Mathlib

/-!
Verification development for the oesu chart-cell decoder.

The decoder reads a sequential, tagged-record binary format into an in-memory
chart model.  The definitions below are a shallow embedding of the Rust
sources:

* `src/types.rs`   — wire layouts (packed, little-endian structs), embedded
  here as fixed byte offsets into byte lists;
* `src/s57.rs`     — the feature data model (`S57`), the code tables
  (`S57Type`, `S57Attribute`) and the edge-stitching algorithm
  (`S57::build_geometries`);
* `src/chartfile.rs` — the record-stream parser `ChartFile::parse_file`.

Bytes are modelled as natural numbers (one list element per byte, values
taken little-endian where the source transmutes).  IEEE-754 values (`f32`,
`f64`) are carried as their raw little-endian bit patterns, which is exactly
what the source manipulates: the parser only ever transmutes bytes into
floats and stores them; no float arithmetic occurs on any path modelled
here.  Fallible reads are `Except`; the source's `assert_eq!` panics and
`usize` subtraction overflow panics are modelled as distinguished error
outcomes marked `isPanic` (they abort parsing but are not delivered through
the function's `io::Result` return value).

The source's unchecked `unsafe` reads past the end of a heap buffer
(`CStr::from_ptr`, `ptr::read_unaligned` of an 11-byte struct from a
shorter buffer, and `Vec::from_raw_parts` with length larger than the
allocation) are modelled by an ambient-memory parameter `mem : List Nat`:
the bytes such a read observes beyond the end of the allocated buffer.
-/

namespace Oesu

/-- Little-endian value of a byte list (least significant byte first). -/
def leBytes : List Nat → Nat
  | [] => 0
  | b :: r => b + 256 * leBytes r

/-- Little-endian encoding of `v` into `k` bytes (used to build concrete
test streams; inverse of `leBytes` for values below `256^k`). -/
def encLE : Nat → Nat → List Nat
  | 0, _ => []
  | k + 1, v => v % 256 :: encLE k (v / 256)

/-- The `n` bytes of `l` starting at byte offset `off`. -/
def bytesAt (l : List Nat) (off n : Nat) : List Nat := (l.drop off).take n

/-- Unsigned 8-bit field at byte offset `off`. -/
def u8At (l : List Nat) (off : Nat) : Nat := leBytes (bytesAt l off 1)

/-- Unsigned 16-bit little-endian field at byte offset `off`. -/
def u16At (l : List Nat) (off : Nat) : Nat := leBytes (bytesAt l off 2)

/-- Unsigned 32-bit little-endian field at byte offset `off`. -/
def u32At (l : List Nat) (off : Nat) : Nat := leBytes (bytesAt l off 4)

/-- 64-bit little-endian field at byte offset `off` (also used for the raw
bit pattern of an `f64`). -/
def u64At (l : List Nat) (off : Nat) : Nat := leBytes (bytesAt l off 8)

/-- `Read::read_exact` on a byte stream: succeeds iff at least `n` bytes
remain, consuming exactly `n`. -/
def readExact (n : Nat) (s : List Nat) : Option (List Nat × List Nat) :=
  if n ≤ s.length then some (s.take n, s.drop n) else none

/-- The bytes of a zero-terminated string scan: everything up to (not
including) the first zero byte; the whole list when it has no zero byte.
This models the scan performed by `CStr::from_ptr`, which stops only at a
zero byte. -/
def cstrBytes (l : List Nat) : List Nat := l.takeWhile (fun b => b != 0)

/-- A UTF-8 continuation byte (`0x80..=0xBF`). -/
def isCont (b : Nat) : Bool := 0x80 ≤ b && b ≤ 0xBF

/-- UTF-8 validity of a byte list, as checked by `String::from_utf8` /
`CStr::to_str` in the source (rejecting overlong forms, surrogates and
code points above U+10FFFF). -/
def validUtf8 : List Nat → Bool
  | [] => true
  | b0 :: r =>
    if b0 ≤ 0x7F then validUtf8 r
    else if b0 < 0xC2 then false
    else if b0 ≤ 0xDF then
      match r with
      | b1 :: r' => isCont b1 && validUtf8 r'
      | [] => false
    else if b0 ≤ 0xEF then
      match r with
      | b1 :: b2 :: r' =>
        (if b0 = 0xE0 then 0xA0 ≤ b1 && b1 ≤ 0xBF
         else if b0 = 0xED then 0x80 ≤ b1 && b1 ≤ 0x9F
         else isCont b1) && isCont b2 && validUtf8 r'
      | _ => false
    else if b0 ≤ 0xF4 then
      match r with
      | b1 :: b2 :: b3 :: r' =>
        (if b0 = 0xF0 then 0x90 ≤ b1 && b1 ≤ 0xBF
         else if b0 = 0xF4 then 0x80 ≤ b1 && b1 ≤ 0x8F
         else isCont b1) && isCont b2 && isCont b3 && validUtf8 r'
      | _ => false
    else false

/-- Attribute-type identifiers, translated from the S57Attribute enum in s57.rs
(one named variant per code in the standard's list, plus the explicit Unknown fallback). -/
inductive S57Attribute where
| Unknown
| AGENCY
| BCNSHP
| BUISHP
| BOYSHP
| BURDEP
| CALSGN
| CATAIR
| CATACH
| CATBRG
| CATBUA
| CATCBL
| CATCAN
| CATCAM
| CATCHP
| CATCOA
| CATCTR
| CATCON
| CATCOV
| CATCRN
| CATDAM
| CATDIS
| CATDOC
| CATDPG
| CATFNC
| CATFRY
| CATFIF
| CATFOG
| CATFOR
| CATGAT
| CATICE
| CATINB
| CATLND
| CATLMK
| CATLAM
| CATLIT
| CATMFA
| CATMPA
| CATMOR
| CATOBS
| CATOFP
| CATOLB
| CATPLE
| CATPIL
| CATPIP
| CATPRA
| CATPYL
| CATQUA
| CATRAS
| CATRTB
| CATROS
| CATTRK
| CATRSC
| CATREA
| CATROD
| CATRUN
| CATSEA
| CATSLC
| CATSIT
| CATSIW
| CATSIL
| CATSLO
| CATSCF
| CATSPM
| CAT_TS
| CATTSS
| CATVEG
| CATWAT
| CATWED
| CATWRK
| SPACE
| CHARS
| COLOUR
| COLPAT
| COMCHA
| CSIZE
| CPDATE
| CSCALE
| CONDTN
| CONRAD
| CONVIS
| CURVEL
| DATEND
| DATSTA
| DRVAL1
| DRVAL2
| DUNITS
| ELEVAT
| ESTRNG
| EXPSOU
| FUNCTN
| HEIGHT
| HUNITS
| HORACC
| HORCLR
| HORLEN
| HORWID
| ICEFAC
| INFORM
| JRSDTN
| JUSTH
| JUSTV
| LIFCAP
| LITCHR
| LITVIS
| MARSYS
| MLTYLT
| NATION
| NATCON
| NATSUR
| NATQUA
| NMDATE
| OBJNAM
| ORIENT
| PEREND
| PERSTA
| PICREP
| PILDST
| PUNITS
| PRCTRY
| PRODCT
| PUBREF
| QUASOU
| RADWAL
| RADIUS
| RECDAT
| RECIND
| RYRMGV
| RESTRN
| SCAMAX
| SCAMIN
| SCVAL1
| SCVAL2
| SECTR1
| SECTR2
| SHIPAM
| SIGFRQ
| SIGGEN
| SIGGRP
| SIGPER
| SIGSEQ
| SOUACC
| SDISMX
| SDISMN
| SORDAT
| SORIND
| STATUS
| SUREND
| SURSTA
| SURTYP
| SCALE
| SCODE
| TECSOU
| TXSTR
| TXTDSC
| TS_TSP
| TS_TSV
| T_ACWL
| T_HWLW
| T_MTOD
| T_THDF
| T_TSVL
| T_VAHC
| T_TINT
| TIMEND
| TIMSTA
| TINTS
| TOPSHP
| TRAFIC
| VALACM
| VALDCO
| VALLMA
| VALMAG
| VALMXR
| VALNMR
| VALSOU
| VERACC
| VERCLR
| VERCCL
| VERCOP
| VERCSA
| VERDAT
| VERLEN
| WATLEV
| NINFOM
| NOBJNM
| NPLDST
| NTXST
| NTXTDS
| HORDAT
| POSACC
| QUAPOS
deriving DecidableEq

/-- Total code-to-attribute lookup, translated from S57Attribute::from_type_code in s57.rs.
The source takes an i32; the parser only ever passes the nonnegative value of a decoded u16. -/
def S57Attribute.fromTypeCode (type_code : Nat) : S57Attribute :=
  match type_code with
  | 1 => .AGENCY
  | 2 => .BCNSHP
  | 3 => .BUISHP
  | 4 => .BOYSHP
  | 5 => .BURDEP
  | 6 => .CALSGN
  | 7 => .CATAIR
  | 8 => .CATACH
  | 9 => .CATBRG
  | 10 => .CATBUA
  | 11 => .CATCBL
  | 12 => .CATCAN
  | 13 => .CATCAM
  | 14 => .CATCHP
  | 15 => .CATCOA
  | 16 => .CATCTR
  | 17 => .CATCON
  | 18 => .CATCOV
  | 19 => .CATCRN
  | 20 => .CATDAM
  | 21 => .CATDIS
  | 22 => .CATDOC
  | 23 => .CATDPG
  | 24 => .CATFNC
  | 25 => .CATFRY
  | 26 => .CATFIF
  | 27 => .CATFOG
  | 28 => .CATFOR
  | 29 => .CATGAT
  | 32 => .CATICE
  | 33 => .CATINB
  | 34 => .CATLND
  | 35 => .CATLMK
  | 36 => .CATLAM
  | 37 => .CATLIT
  | 38 => .CATMFA
  | 39 => .CATMPA
  | 40 => .CATMOR
  | 42 => .CATOBS
  | 43 => .CATOFP
  | 44 => .CATOLB
  | 45 => .CATPLE
  | 46 => .CATPIL
  | 47 => .CATPIP
  | 48 => .CATPRA
  | 49 => .CATPYL
  | 50 => .CATQUA
  | 51 => .CATRAS
  | 52 => .CATRTB
  | 53 => .CATROS
  | 54 => .CATTRK
  | 55 => .CATRSC
  | 56 => .CATREA
  | 57 => .CATROD
  | 58 => .CATRUN
  | 59 => .CATSEA
  | 60 => .CATSLC
  | 61 => .CATSIT
  | 62 => .CATSIW
  | 63 => .CATSIL
  | 64 => .CATSLO
  | 65 => .CATSCF
  | 66 => .CATSPM
  | 67 => .CATTSS
  | 68 => .CATVEG
  | 69 => .CATWAT
  | 70 => .CATWED
  | 71 => .CATWRK
  | 73 => .SPACE
  | 74 => .CHARS
  | 75 => .COLOUR
  | 76 => .COLPAT
  | 77 => .COMCHA
  | 78 => .CSIZE
  | 79 => .CPDATE
  | 80 => .CSCALE
  | 81 => .CONDTN
  | 82 => .CONRAD
  | 83 => .CONVIS
  | 84 => .CURVEL
  | 85 => .DATEND
  | 86 => .DATSTA
  | 87 => .DRVAL1
  | 88 => .DRVAL2
  | 89 => .DUNITS
  | 90 => .ELEVAT
  | 91 => .ESTRNG
  | 93 => .EXPSOU
  | 94 => .FUNCTN
  | 95 => .HEIGHT
  | 96 => .HUNITS
  | 97 => .HORACC
  | 98 => .HORCLR
  | 99 => .HORLEN
  | 100 => .HORWID
  | 101 => .ICEFAC
  | 102 => .INFORM
  | 103 => .JRSDTN
  | 104 => .JUSTH
  | 105 => .JUSTV
  | 106 => .LIFCAP
  | 107 => .LITCHR
  | 108 => .LITVIS
  | 109 => .MARSYS
  | 110 => .MLTYLT
  | 111 => .NATION
  | 112 => .NATCON
  | 113 => .NATSUR
  | 114 => .NATQUA
  | 115 => .NMDATE
  | 116 => .OBJNAM
  | 117 => .ORIENT
  | 118 => .PEREND
  | 119 => .PERSTA
  | 120 => .PICREP
  | 121 => .PILDST
  | 122 => .PRCTRY
  | 123 => .PRODCT
  | 124 => .PUBREF
  | 125 => .QUASOU
  | 126 => .RADWAL
  | 127 => .RADIUS
  | 128 => .RECDAT
  | 129 => .RECIND
  | 130 => .RYRMGV
  | 131 => .RESTRN
  | 132 => .SCAMAX
  | 133 => .SCAMIN
  | 134 => .SCVAL1
  | 135 => .SCVAL2
  | 136 => .SECTR1
  | 137 => .SECTR2
  | 138 => .SHIPAM
  | 139 => .SIGFRQ
  | 140 => .SIGGEN
  | 141 => .SIGGRP
  | 142 => .SIGPER
  | 143 => .SIGSEQ
  | 144 => .SOUACC
  | 145 => .SDISMX
  | 146 => .SDISMN
  | 147 => .SORDAT
  | 148 => .SORIND
  | 149 => .STATUS
  | 151 => .SUREND
  | 152 => .SURSTA
  | 153 => .SURTYP
  | 154 => .SCALE
  | 155 => .SCODE
  | 156 => .TECSOU
  | 157 => .TXSTR
  | 158 => .TXTDSC
  | 159 => .TS_TSP
  | 160 => .TS_TSV
  | 161 => .T_ACWL
  | 162 => .T_HWLW
  | 163 => .T_MTOD
  | 164 => .T_THDF
  | 165 => .T_TINT
  | 166 => .T_TSVL
  | 167 => .T_VAHC
  | 168 => .TIMEND
  | 169 => .TIMSTA
  | 170 => .TINTS
  | 171 => .TOPSHP
  | 172 => .TRAFIC
  | 173 => .VALACM
  | 174 => .VALDCO
  | 175 => .VALLMA
  | 176 => .VALMAG
  | 177 => .VALMXR
  | 178 => .VALNMR
  | 179 => .VALSOU
  | 180 => .VERACC
  | 181 => .VERCLR
  | 182 => .VERCCL
  | 183 => .VERCOP
  | 184 => .VERCSA
  | 185 => .VERDAT
  | 186 => .VERLEN
  | 187 => .WATLEV
  | 188 => .CAT_TS
  | 189 => .PUNITS
  | 300 => .NINFOM
  | 301 => .NOBJNM
  | 302 => .NPLDST
  | 303 => .NTXST
  | 304 => .NTXTDS
  | 400 => .HORDAT
  | 401 => .POSACC
  | 402 => .QUAPOS
  | _ => .Unknown

/-- Feature-type identifiers, translated from the S57Type enum in s57.rs. -/
inductive S57Type where
| Unknown
| ADMARE
| AIRARE
| ACHBRT
| ACHARE
| BCNCAR
| BCNISD
| BCNLAT
| BCNSAW
| BCNSPP
| BERTHS
| BRIDGE
| BUISGL
| BUAARE
| BOYCAR
| BOYINB
| BOYISD
| BOYLAT
| BOYSAW
| BOYSPP
| CBLARE
| CBLOHD
| CBLSUB
| CANALS
| CANBNK
| CTSARE
| CAUSWY
| CTNARE
| CHKPNT
| CGUSTA
| COALNE
| CONZNE
| COSARE
| CTRPNT
| CONVYR
| CRANES
| CURENT
| CUSZNE
| DAMCON
| DAYMAR
| DWRTCL
| DWRTPT
| DEPARE
| DEPCNT
| DISMAR
| DOCARE
| DRGARE
| DRYDOC
| DMPGRD
| DYKCON
| EXEZNE
| FAIRWY
| FNCLNE
| FERYRT
| FSHZNE
| FSHFAC
| FSHGRD
| FLODOC
| FOGSIG
| FORSTC
| FRPARE
| GATCON
| GRIDRN
| HRBARE
| HRBFAC
| HULKES
| ICEARE
| ICNARE
| ISTZNE
| LAKARE
| LAKSHR
| LNDARE
| LNDELV
| LNDRGN
| LNDMRK
| LIGHTS
| LITFLT
| LITVES
| LOCMAG
| LOKBSN
| LOGPON
| MAGVAR
| MARCUL
| MIPARE
| MORFAC
| NAVLNE
| OBSTRN
| OFSPLF
| OSPARE
| OILBAR
| PILPNT
| PILBOP
| PIPARE
| PIPOHD
| PIPSOL
| PONTON
| PRCARE
| PRDARE
| PYLONS
| RADLNE
| RADRNG
| RADRFL
| RADSTA
| RTPBCN
| RDOCAL
| RDOSTA
| RAILWY
| RAPIDS
| RCRTCL
| RECTRC
| RCTLPT
| RSCSTA
| RESARE
| RETRFL
| RIVERS
| RIVBNK
| ROADWY
| RUNWAY
| SNDWAV
| SEAARE
| SPLARE
| SBDARE
| SLCONS
| SISTAT
| SISTAW
| SILTNK
| SLOTOP
| SLOGRD
| SMCFAC
| SOUNDG
| SPRING
| SQUARE
| STSLNE
| SUBTLN
| SWPARE
| TESARE
| TS_PRH
| TS_FEB
| TS_PNH
| TS_PAD
| TS_TIS
| T_HMON
| T_NHMN
| T_TIMS
| TIDEWY
| TOPMAR
| TSELNE
| TSSBND
| TSSCRS
| TSSLPT
| TSSRON
| TSEZNE
| TUNNEL
| TWRTPT
| UWTROC
| UNSARE
| VEGATN
| WATTUR
| WATFAL
| WEDKLP
| WRECKS
| M_ACCY
| M_CSCL
| M_COVR
| M_HDAT
| M_HOPA
| M_NPUB
| M_NSYS
| M_PROD
| M_QUAL
| M_SDAT
| M_SREL
| M_UNIT
| M_VDAT
| C_AGGR
| C_ASSO
| C_STAC
| AREAS
| LINES
| CSYMB
| COMPS
| TEXTS
deriving DecidableEq

set_option maxRecDepth 4000 in
/-- Total code-to-feature-type lookup, translated from S57Type::from_type_code in s57.rs
(one sequential comparison per arm, kept in source order, including the
out-of-order 160 arm; any code without an arm falls through to Unknown).
The source takes an i32; the parser passes the value of a decoded u16. -/
def S57Type.fromTypeCode (type_code : Nat) : S57Type :=
  if type_code = 0 then .Unknown
  else if type_code = 1 then .ADMARE
  else if type_code = 2 then .AIRARE
  else if type_code = 3 then .ACHBRT
  else if type_code = 4 then .ACHARE
  else if type_code = 5 then .BCNCAR
  else if type_code = 6 then .BCNISD
  else if type_code = 7 then .BCNLAT
  else if type_code = 8 then .BCNSAW
  else if type_code = 9 then .BCNSPP
  else if type_code = 10 then .BERTHS
  else if type_code = 11 then .BRIDGE
  else if type_code = 12 then .BUISGL
  else if type_code = 13 then .BUAARE
  else if type_code = 14 then .BOYCAR
  else if type_code = 15 then .BOYINB
  else if type_code = 16 then .BOYISD
  else if type_code = 17 then .BOYLAT
  else if type_code = 18 then .BOYSAW
  else if type_code = 19 then .BOYSPP
  else if type_code = 20 then .CBLARE
  else if type_code = 21 then .CBLOHD
  else if type_code = 22 then .CBLSUB
  else if type_code = 23 then .CANALS
  else if type_code = 24 then .CANBNK
  else if type_code = 25 then .CTSARE
  else if type_code = 26 then .CAUSWY
  else if type_code = 27 then .CTNARE
  else if type_code = 28 then .CHKPNT
  else if type_code = 29 then .CGUSTA
  else if type_code = 30 then .COALNE
  else if type_code = 31 then .CONZNE
  else if type_code = 32 then .COSARE
  else if type_code = 33 then .CTRPNT
  else if type_code = 34 then .CONVYR
  else if type_code = 35 then .CRANES
  else if type_code = 36 then .CURENT
  else if type_code = 37 then .CUSZNE
  else if type_code = 38 then .DAMCON
  else if type_code = 39 then .DAYMAR
  else if type_code = 40 then .DWRTCL
  else if type_code = 41 then .DWRTPT
  else if type_code = 42 then .DEPARE
  else if type_code = 43 then .DEPCNT
  else if type_code = 44 then .DISMAR
  else if type_code = 45 then .DOCARE
  else if type_code = 46 then .DRGARE
  else if type_code = 47 then .DRYDOC
  else if type_code = 48 then .DMPGRD
  else if type_code = 49 then .DYKCON
  else if type_code = 50 then .EXEZNE
  else if type_code = 51 then .FAIRWY
  else if type_code = 52 then .FNCLNE
  else if type_code = 53 then .FERYRT
  else if type_code = 54 then .FSHZNE
  else if type_code = 55 then .FSHFAC
  else if type_code = 56 then .FSHGRD
  else if type_code = 57 then .FLODOC
  else if type_code = 58 then .FOGSIG
  else if type_code = 59 then .FORSTC
  else if type_code = 60 then .FRPARE
  else if type_code = 61 then .GATCON
  else if type_code = 62 then .GRIDRN
  else if type_code = 63 then .HRBARE
  else if type_code = 64 then .HRBFAC
  else if type_code = 65 then .HULKES
  else if type_code = 66 then .ICEARE
  else if type_code = 67 then .ICNARE
  else if type_code = 68 then .ISTZNE
  else if type_code = 69 then .LAKARE
  else if type_code = 70 then .LAKSHR
  else if type_code = 71 then .LNDARE
  else if type_code = 72 then .LNDELV
  else if type_code = 73 then .LNDRGN
  else if type_code = 74 then .LNDMRK
  else if type_code = 75 then .LIGHTS
  else if type_code = 76 then .LITFLT
  else if type_code = 77 then .LITVES
  else if type_code = 78 then .LOCMAG
  else if type_code = 79 then .LOKBSN
  else if type_code = 80 then .LOGPON
  else if type_code = 81 then .MAGVAR
  else if type_code = 82 then .MARCUL
  else if type_code = 83 then .MIPARE
  else if type_code = 84 then .MORFAC
  else if type_code = 85 then .NAVLNE
  else if type_code = 86 then .OBSTRN
  else if type_code = 87 then .OFSPLF
  else if type_code = 88 then .OSPARE
  else if type_code = 89 then .OILBAR
  else if type_code = 90 then .PILPNT
  else if type_code = 91 then .PILBOP
  else if type_code = 92 then .PIPARE
  else if type_code = 93 then .PIPOHD
  else if type_code = 94 then .PIPSOL
  else if type_code = 95 then .PONTON
  else if type_code = 96 then .PRCARE
  else if type_code = 97 then .PRDARE
  else if type_code = 98 then .PYLONS
  else if type_code = 99 then .RADLNE
  else if type_code = 100 then .RADRNG
  else if type_code = 101 then .RADRFL
  else if type_code = 102 then .RADSTA
  else if type_code = 103 then .RTPBCN
  else if type_code = 104 then .RDOCAL
  else if type_code = 105 then .RDOSTA
  else if type_code = 106 then .RAILWY
  else if type_code = 107 then .RAPIDS
  else if type_code = 108 then .RCRTCL
  else if type_code = 109 then .RECTRC
  else if type_code = 110 then .RCTLPT
  else if type_code = 111 then .RSCSTA
  else if type_code = 112 then .RESARE
  else if type_code = 113 then .RETRFL
  else if type_code = 114 then .RIVERS
  else if type_code = 115 then .RIVBNK
  else if type_code = 116 then .ROADWY
  else if type_code = 117 then .RUNWAY
  else if type_code = 118 then .SNDWAV
  else if type_code = 119 then .SEAARE
  else if type_code = 120 then .SPLARE
  else if type_code = 121 then .SBDARE
  else if type_code = 122 then .SLCONS
  else if type_code = 123 then .SISTAT
  else if type_code = 124 then .SISTAW
  else if type_code = 125 then .SILTNK
  else if type_code = 126 then .SLOTOP
  else if type_code = 127 then .SLOGRD
  else if type_code = 128 then .SMCFAC
  else if type_code = 129 then .SOUNDG
  else if type_code = 130 then .SPRING
  else if type_code = 131 then .SQUARE
  else if type_code = 132 then .STSLNE
  else if type_code = 133 then .SUBTLN
  else if type_code = 134 then .SWPARE
  else if type_code = 135 then .TESARE
  else if type_code = 136 then .TS_PRH
  else if type_code = 160 then .TS_FEB
  else if type_code = 137 then .TS_PNH
  else if type_code = 138 then .TS_PAD
  else if type_code = 139 then .TS_TIS
  else if type_code = 140 then .T_HMON
  else if type_code = 141 then .T_NHMN
  else if type_code = 142 then .T_TIMS
  else if type_code = 143 then .TIDEWY
  else if type_code = 144 then .TOPMAR
  else if type_code = 145 then .TSELNE
  else if type_code = 146 then .TSSBND
  else if type_code = 147 then .TSSCRS
  else if type_code = 148 then .TSSLPT
  else if type_code = 149 then .TSSRON
  else if type_code = 150 then .TSEZNE
  else if type_code = 151 then .TUNNEL
  else if type_code = 152 then .TWRTPT
  else if type_code = 153 then .UWTROC
  else if type_code = 154 then .UNSARE
  else if type_code = 155 then .VEGATN
  else if type_code = 156 then .WATTUR
  else if type_code = 157 then .WATFAL
  else if type_code = 158 then .WEDKLP
  else if type_code = 159 then .WRECKS
  else if type_code = 300 then .M_ACCY
  else if type_code = 301 then .M_CSCL
  else if type_code = 302 then .M_COVR
  else if type_code = 303 then .M_HDAT
  else if type_code = 304 then .M_HOPA
  else if type_code = 305 then .M_NPUB
  else if type_code = 306 then .M_NSYS
  else if type_code = 307 then .M_PROD
  else if type_code = 308 then .M_QUAL
  else if type_code = 309 then .M_SDAT
  else if type_code = 310 then .M_SREL
  else if type_code = 311 then .M_UNIT
  else if type_code = 312 then .M_VDAT
  else if type_code = 400 then .C_AGGR
  else if type_code = 401 then .C_ASSO
  else if type_code = 402 then .C_STAC
  else if type_code = 500 then .AREAS
  else if type_code = 501 then .LINES
  else if type_code = 502 then .CSYMB
  else if type_code = 503 then .COMPS
  else if type_code = 504 then .TEXTS
  else .Unknown

/-- Traversal direction of an edge's interior point list, translated from
the Direction enum in s57.rs. -/
inductive Direction where
  | Forward
  | Reverse
deriving DecidableEq

/-- Geographic position, translated from Position in s57.rs.  The source
fields are `f64`; here each field carries the raw IEEE-754 binary64
little-endian bit pattern, which is all the parser ever produces or copies. -/
structure Position where
  lat : Nat
  lon : Nat
deriving DecidableEq

/-- Modelled from the spec: chart coverage extent, a top-left and a
bottom-right Position (`Rect` is imported by chartfile.rs from s57.rs but
its declaration is not present under src/). -/
structure Rect where
  top_left : Position
  bottom_right : Position
deriving DecidableEq

/-- Directed edge reference, translated from LineElement in s57.rs.  The node
and edge identifiers are `u32` in the source.  The parser obtains values of
this type by reinterpreting raw bytes (16 bytes per element, the compiler
layout of the source struct); the source derives `direction` from an
unchecked transmutation of the trailing byte whose exact bit pattern the
spec leaves open, so the byte decoder below maps byte 0 to Forward and any
other byte to Reverse — no claim depends on this choice. -/
structure LineElement where
  start_connected_node : Nat
  edge_vector : Nat
  end_connected_node : Nat
  direction : Direction
deriving DecidableEq

/-- One decoded sounding point of a Multipoint geometry record.  In the
source (`PointGeometry` in s57.rs) the stored value is
`Position::from_simple_mercator(easting, northing, extent.center())` paired
with `depth as f64`; `from_simple_mercator` and `Rect::center` are not
present under src/ and are transcendental floating-point maps of exactly
these three 32-bit patterns and the extent, so the model keeps the decoded
raw `f32` bit patterns of each point, from which the source's stored pair
is determined. -/
structure SoundingPoint where
  eastingBits : Nat
  northingBits : Nat
  depthBits : Nat
deriving DecidableEq

/-- Modelled from the spec (and from the uses in chartfile.rs): the tagged
attribute value union over unsigned 32-bit integer, 64-bit float and text.
chartfile.rs stores `AttributeValue::UInt32`, `AttributeValue::Double` (an
`f64`) and `AttributeValue::String`; the `AttributeValue` declaration under
src/s57.rs lists `UInt32(u32)`, `Float(f32)` and `String(String)` — the
`Double` variant the parser constructs is missing from it, so this
declaration follows the spec's union {u32, f64, text}.  `Double` carries
the raw binary64 bit pattern; `String` carries the UTF-8 bytes. -/
inductive AttributeValue where
  | UInt32 (v : Nat)
  | Double (bits : Nat)
  | String (bytes : List Nat)
deriving DecidableEq

/-- Ordered interior positions of a vector edge, translated from VectorEdge
in s57.rs. -/
structure VectorEdge where
  points : List Position
deriving DecidableEq

/-- A connected node's single position, translated from ConnectedNode in
s57.rs. -/
structure ConnectedNode where
  position : Position
deriving DecidableEq

/-- Insertion into the attribute mapping.  The source uses
`HashMap::insert`, which replaces any existing value for the key; the
mapping is modelled as an association list with unique keys, replacement in
place. -/
def insertAttribute :
    List (S57Attribute × AttributeValue) → S57Attribute → AttributeValue →
    List (S57Attribute × AttributeValue)
  | [], k, v => [(k, v)]
  | (k', v') :: t, k, v =>
    if k' = k then (k, v) :: t else (k', v') :: insertAttribute t k v

/-- Lookup in the attribute mapping (`HashMap::get` / `S57::attribute`). -/
def lookupAttribute (m : List (S57Attribute × AttributeValue)) (k : S57Attribute) :
    Option AttributeValue :=
  match m with
  | [] => none
  | (k', v') :: t => if k' = k then some v' else lookupAttribute t k

/-- One decoded chart feature, translated from the S57 struct in s57.rs. -/
structure S57 where
  s57_type : S57Type
  line_elements : List LineElement
  polygon_line_elements : List LineElement
  lines : List (List Position)
  polygons : List (List Position)
  multi_point_geometry : List SoundingPoint
  point_geometry : Option Position
  attributes : List (S57Attribute × AttributeValue)
deriving DecidableEq

/-- `S57::from_type_code`: a fresh feature of the resolved type with all
geometry and attribute containers empty. -/
def S57.fromTypeCode (type_code : Nat) : S57 :=
  { s57_type := S57Type.fromTypeCode type_code
    line_elements := []
    polygon_line_elements := []
    lines := []
    polygons := []
    multi_point_geometry := []
    point_geometry := none
    attributes := [] }

/-- `S57::set_attribute`. -/
def S57.set_attribute (s : S57) (a : S57Attribute) (v : AttributeValue) : S57 :=
  { s with attributes := insertAttribute s.attributes a v }

/-- `S57::set_line_geometry`. -/
def S57.set_line_geometry (s : S57) (elements : List LineElement) : S57 :=
  { s with line_elements := elements }

/-- `S57::set_polygon_geometry`. -/
def S57.set_polygon_geometry (s : S57) (elements : List LineElement) : S57 :=
  { s with polygon_line_elements := elements }

/-- `S57::set_point_geometry`. -/
def S57.set_point_geometry (s : S57) (p : Position) : S57 :=
  { s with point_geometry := some p }

/-- `S57::set_multi_point_geometry`. -/
def S57.set_multi_point_geometry (s : S57) (pts : List SoundingPoint) : S57 :=
  { s with multi_point_geometry := pts }

/-- Does the incoming element extend this chain at its end?  The source
test is `line_element.start_connected_node == line_string.last().unwrap().end_connected_node`;
a chain in the assembler is never empty, and an empty chain is treated as
matching nothing. -/
def appendMatch (chain : List LineElement) (e : LineElement) : Bool :=
  match chain.getLast? with
  | some l => e.start_connected_node == l.end_connected_node
  | none => false

/-- Does the incoming element extend this chain at its front?  The source
test is `line_element.end_connected_node == line_string.first().unwrap().start_connected_node`. -/
def prependMatch (chain : List LineElement) (e : LineElement) : Bool :=
  match chain.head? with
  | some f => e.end_connected_node == f.start_connected_node
  | none => false

/-- The inner chain scan of `S57::build_geometries`: walk the existing
chains in creation order; the first chain for which the append test — or,
failing that for the same chain, the prepend test — succeeds receives the
element; `none` when no chain matches. -/
def connectInsert (e : LineElement) :
    List (List LineElement) → Option (List (List LineElement))
  | [] => none
  | c :: cs =>
    if appendMatch c e then some ((c ++ [e]) :: cs)
    else if prependMatch c e then some ((e :: c) :: cs)
    else
      match connectInsert e cs with
      | some cs' => some (c :: cs')
      | none => none

/-- Processing of one element against the growing chain list: insert into
the first matching chain, otherwise start a new chain holding only this
element (pushed at the end, preserving chain-creation order). -/
def connectStep (acc : List (List LineElement)) (e : LineElement) :
    List (List LineElement) :=
  match connectInsert e acc with
  | some acc' => acc'
  | none => acc ++ [[e]]

/-- The chain-building pass of `S57::build_geometries`: elements processed
in input order against an initially empty chain list. -/
def connectChains (elements : List LineElement) : List (List LineElement) :=
  elements.foldl connectStep []

/-- Positions contributed by looking up a node id: its single position, or
nothing when the id is absent (the source logs a warning and skips). -/
def nodePos (connected_nodes : Nat → Option ConnectedNode) (id : Nat) :
    List Position :=
  match connected_nodes id with
  | some n => [n.position]
  | none => []

/-- Positions contributed by one element's edge: the edge's interior points
in stored order (Forward) or reversed (Reverse); nothing when the edge id
is 0 or the id is absent from the table. -/
def edgePositions (vector_edges : Nat → Option VectorEdge) (e : LineElement) :
    List Position :=
  if e.edge_vector ≠ 0 then
    match vector_edges e.edge_vector with
    | some ve =>
      match e.direction with
      | Direction.Reverse => ve.points.reverse
      | Direction.Forward => ve.points
    | none => []
  else []

/-- Materialization of one chain into a coordinate sequence: per element in
chain order, the start node's position then the edge's interior points;
finally the end node position of the chain's last element. -/
def materializeChain (vector_edges : Nat → Option VectorEdge)
    (connected_nodes : Nat → Option ConnectedNode)
    (chain : List LineElement) : List Position :=
  (chain.foldl
    (fun g e => g ++ nodePos connected_nodes e.start_connected_node
                  ++ edgePositions vector_edges e) [])
  ++ (match chain.getLast? with
      | some l => nodePos connected_nodes l.end_connected_node
      | none => [])

/-- `S57::build_geometries`: chain building followed by materialization, one
coordinate sequence per chain in chain-creation order. -/
def buildGeometries (elements : List LineElement)
    (vector_edges : Nat → Option VectorEdge)
    (connected_nodes : Nat → Option ConnectedNode) : List (List Position) :=
  (connectChains elements).map (materializeChain vector_edges connected_nodes)


/-- Reinterpretation of 16 raw bytes as one LineElement (the unchecked
`Vec::from_raw_parts` reinterpretation in chartfile.rs, at the compiler
layout offsets 0/4/8 for the three u32 ids and 12 for the direction byte). -/
def decodeLineElement (b : List Nat) : LineElement :=
  { start_connected_node := u32At b 0
    edge_vector := u32At b 4
    end_connected_node := u32At b 8
    direction := if u8At b 12 = 0 then Direction.Forward else Direction.Reverse }

/-- Chunked LineElement decoding helper: `k` consecutive 16-byte elements. -/
def decodeLineElementsAux : Nat → List Nat → List LineElement
  | 0, _ => []
  | k + 1, b => decodeLineElement (b.take 16) :: decodeLineElementsAux k (b.drop 16)

/-- Reinterpretation of a byte buffer as a LineElement array; the element
count is the byte length divided by the 16-byte element size, as in the
source's `line_data.len() / std::mem::size_of::<LineElement>()`. -/
def decodeLineElements (b : List Nat) : List LineElement :=
  decodeLineElementsAux (b.length / 16) b

/-- Abnormal parse outcomes.  The first five are `Err(io::Error)` values
actually returned by `parse_file` (or a propagated short-read error); the
last two model panics: `assertFail` is an `assert_eq!` failure and
`usizeUnderflow` an overflowing `usize` subtraction, both of which abort
parsing by unwinding instead of being delivered through the `io::Result`
return value. -/
inductive PErr where
  | failedParseHeader
  | chartExpired
  | signatureFailure
  | unsupportedVersion
  | truncated
  | assertFail
  | usizeUnderflow
deriving DecidableEq

/-- Whether an outcome models a panic (abnormal unwinding) rather than a
returned `Err` value. -/
def PErr.isPanic : PErr → Bool
  | .assertFail => true
  | .usizeUnderflow => true
  | _ => false

/-- The `usize` subtraction `a - b` of the source, which panics when it
would underflow. -/
def usizeSub (a b : Nat) : Except PErr Nat :=
  if b ≤ a then .ok (a - b) else .error .usizeUnderflow

/-- `read_exact` with the error propagation of the `?` operator. -/
def readE (n : Nat) (s : List Nat) : Except PErr (List Nat × List Nat) :=
  match readExact n s with
  | some p => .ok p
  | none => .error .truncated

/-- The mutable state of `ChartFile::parse_file`'s loop.  `s57Rev` holds
the features most recent first (the source pushes to the back of
`s57_vector`; here the current feature is the head).  `hasCurrent` is true
once the `current_s57` cursor points at a feature; the source only ever
re-points it at the most recently pushed feature. -/
structure PState where
  extent : Rect
  name : List Nat
  publishdate : List Nat
  s57Rev : List S57
  edition : Nat
  updatedate : List Nat
  update : Nat
  nativescale : Nat
  soundingdatum : List Nat
  hasCurrent : Bool
deriving DecidableEq

/-- The root decoded artifact, translated from the ChartFile struct in
chartfile.rs.  Text fields carry validated UTF-8 bytes. -/
structure ChartFile where
  extent : Rect
  s57 : List S57
  name : List Nat
  publishdate : List Nat
  edition : Nat
  updatedate : List Nat
  update : Nat
  nativescale : Nat
  soundingdatum : List Nat
deriving DecidableEq

/-- The ChartFile assembled from the loop state (the `Ok(ChartFile { .. })`
at the end of `parse_file`). -/
def PState.toChart (st : PState) : ChartFile :=
  { extent := st.extent
    s57 := st.s57Rev.reverse
    name := st.name
    publishdate := st.publishdate
    edition := st.edition
    updatedate := st.updatedate
    update := st.update
    nativescale := st.nativescale
    soundingdatum := st.soundingdatum }

/-- The initial loop state of `parse_file` (zeroed extent, empty strings and
counters, no features, no current feature). -/
def initState : PState :=
  { extent := { top_left := { lat := 0, lon := 0 }
                bottom_right := { lat := 0, lon := 0 } }
    name := []
    publishdate := []
    s57Rev := []
    edition := 0
    updatedate := []
    update := 0
    nativescale := 0
    soundingdatum := []
    hasCurrent := false }

/-- Mutation through the `current_s57` cursor: apply `f` to the most
recently identified feature; no-op while the cursor is unset (the source's
`if let Some(ref mut s57) = current_s57`). -/
def PState.updateCurrent (st : PState) (f : S57 → S57) : PState :=
  if st.hasCurrent then
    match st.s57Rev with
    | [] => st
    | c :: rest => { st with s57Rev := f c :: rest }
  else st

/-- `s57_vector.push(..); current_s57 = s57_vector.last_mut();`. -/
def PState.pushFeature (st : PState) (s : S57) : PState :=
  { st with s57Rev := s :: st.s57Rev, hasCurrent := true }

/-- SERVER_STATUS_RECORD (type 200): reject a declared record length of 20
or more, check the payload is the 12-byte server-status layout, then fail
on a zero expire flag (chart expired) or a zero decrypt flag (signature
failure); otherwise leave the state unchanged. -/
def serverstatHandler (st : PState) (len : Nat) (rest : List Nat) :
    Except PErr (PState × List Nat) :=
  if 20 ≤ len then .error .failedParseHeader
  else
    match usizeSub len 6 with
    | .error e => .error e
    | .ok bufSize =>
      if bufSize ≠ 12 then .error .assertFail
      else
        match readE 12 rest with
        | .error e => .error e
        | .ok (b, rest') =>
          if u16At b 4 = 0 then .error .chartExpired
          else if u16At b 2 = 0 then .error .signatureFailure
          else .ok (st, rest')

/-- HEADER_SENC_VERSION (type 1): reject a declared record length outside
[6,16), check the payload is exactly a u16, then fail on a version below
201. -/
def versionHandler (st : PState) (len : Nat) (rest : List Nat) :
    Except PErr (PState × List Nat) :=
  if len < 6 ∨ 16 ≤ len then .error .failedParseHeader
  else if len - 6 ≠ 2 then .error .assertFail
  else
    match readE 2 rest with
    | .error e => .error e
    | .ok (b, rest') =>
      if u16At b 0 < 201 then .error .unsupportedVersion
      else .ok (st, rest')

/-- Shared shape of the four metadata text records: read the remaining
payload and keep it only when it is valid UTF-8. -/
def readTextField (len : Nat) (rest : List Nat) :
    Except PErr (Option (List Nat) × List Nat) :=
  match usizeSub len 6 with
  | .error e => .error e
  | .ok bufSize =>
    match readE bufSize rest with
    | .error e => .error e
    | .ok (b, rest') => .ok ((if validUtf8 b then some b else none), rest')

/-- HEADER_CELL_NAME (type 2). -/
def cellNameHandler (st : PState) (len : Nat) (rest : List Nat) :
    Except PErr (PState × List Nat) :=
  match readTextField len rest with
  | .error e => .error e
  | .ok (some b, rest') => .ok ({ st with name := b }, rest')
  | .ok (none, rest') => .ok (st, rest')

/-- HEADER_CELL_PUBLISHDATE (type 3). -/
def publishdateHandler (st : PState) (len : Nat) (rest : List Nat) :
    Except PErr (PState × List Nat) :=
  match readTextField len rest with
  | .error e => .error e
  | .ok (some b, rest') => .ok ({ st with publishdate := b }, rest')
  | .ok (none, rest') => .ok (st, rest')

/-- HEADER_CELL_UPDATEDATE (type 5). -/
def updatedateHandler (st : PState) (len : Nat) (rest : List Nat) :
    Except PErr (PState × List Nat) :=
  match readTextField len rest with
  | .error e => .error e
  | .ok (some b, rest') => .ok ({ st with updatedate := b }, rest')
  | .ok (none, rest') => .ok (st, rest')

/-- HEADER_CELL_SOUNDINGDATUM (type 9). -/
def soundingdatumHandler (st : PState) (len : Nat) (rest : List Nat) :
    Except PErr (PState × List Nat) :=
  match readTextField len rest with
  | .error e => .error e
  | .ok (some b, rest') => .ok ({ st with soundingdatum := b }, rest')
  | .ok (none, rest') => .ok (st, rest')

/-- HEADER_CELL_EDITION (type 4): fixed-width u16 into the metadata. -/
def editionHandler (st : PState) (len : Nat) (rest : List Nat) :
    Except PErr (PState × List Nat) :=
  match usizeSub len 6 with
  | .error e => .error e
  | .ok bufSize =>
    if bufSize ≠ 2 then .error .assertFail
    else
      match readE 2 rest with
      | .error e => .error e
      | .ok (b, rest') => .ok ({ st with edition := u16At b 0 }, rest')

/-- HEADER_CELL_UPDATE (type 6): fixed-width u16 into the metadata. -/
def updateHandler (st : PState) (len : Nat) (rest : List Nat) :
    Except PErr (PState × List Nat) :=
  match usizeSub len 6 with
  | .error e => .error e
  | .ok bufSize =>
    if bufSize ≠ 2 then .error .assertFail
    else
      match readE 2 rest with
      | .error e => .error e
      | .ok (b, rest') => .ok ({ st with update := u16At b 0 }, rest')

/-- HEADER_CELL_NATIVESCALE (type 7): fixed-width u32 into the metadata. -/
def nativescaleHandler (st : PState) (len : Nat) (rest : List Nat) :
    Except PErr (PState × List Nat) :=
  match usizeSub len 6 with
  | .error e => .error e
  | .ok bufSize =>
    if bufSize ≠ 4 then .error .assertFail
    else
      match readE 4 rest with
      | .error e => .error e
      | .ok (b, rest') => .ok ({ st with nativescale := u32At b 0 }, rest')

/-- The skipped records (senc-create-date, coverage and non-coverage
polygons, area-extended, the four edge/node tables, text-description
file): advance the stream past the payload without decoding it. -/
def skipHandler (st : PState) (len : Nat) (rest : List Nat) :
    Except PErr (PState × List Nat) :=
  match usizeSub len 6 with
  | .error e => .error e
  | .ok bufSize => .ok (st, rest.drop bufSize)

/-- CELL_EXTENT_RECORD (type 100): read the 64-byte payload of 8 doubles
(four corners) and retain the north-west corner as top-left and the
south-east corner as bottom-right. -/
def extentHandler (st : PState) (len : Nat) (rest : List Nat) :
    Except PErr (PState × List Nat) :=
  match usizeSub len 6 with
  | .error e => .error e
  | .ok bufSize =>
    if bufSize ≠ 64 then .error .assertFail
    else
      match readE 64 rest with
      | .error e => .error e
      | .ok (b, rest') =>
        .ok ({ st with extent :=
                { top_left := { lat := u64At b 16, lon := u64At b 24 }
                  bottom_right := { lat := u64At b 48, lon := u64At b 56 } } },
             rest')

/-- FEATURE_ID_RECORD (type 64): read the 5-byte payload
{type code: u16, id: u16, primitive: u8}, append a fresh feature of the
resolved type and re-point the current-feature cursor at it. -/
def featureIdHandler (st : PState) (len : Nat) (rest : List Nat) :
    Except PErr (PState × List Nat) :=
  match usizeSub len 6 with
  | .error e => .error e
  | .ok bufSize =>
    if bufSize ≠ 5 then .error .assertFail
    else
      match readE 5 rest with
      | .error e => .error e
      | .ok (b, rest') =>
        .ok (st.pushFeature (S57.fromTypeCode (u16At b 0)), rest')

/-- The decoding core of FEATURE_ATTRIBUTE_RECORD applied to the payload
buffer already read from the stream.  The source copies a fixed 11-byte
`OsencAttributeRecordPayload` out of the variable-length buffer with
`ptr::read_unaligned` and, for text values, scans from byte offset
3 = size_of(payload struct) − size_of(char pointer) with `CStr::from_ptr`;
both reads run past the end of the buffer when it is short or contains no
zero byte, observing the ambient bytes `mem`. -/
def attrApply (mem : List Nat) (st : PState) (buf : List Nat) : PState :=
  let frame := buf ++ mem
  let attribute_value_type := u8At frame 2
  let attr := S57Attribute.fromTypeCode (u16At frame 0)
  if attr = S57Attribute.Unknown then st
  else
    match attribute_value_type with
    | 0 => st.updateCurrent (fun s =>
        s.set_attribute attr (AttributeValue.UInt32 (u32At frame 3)))
    | 2 => st.updateCurrent (fun s =>
        s.set_attribute attr (AttributeValue.Double (u64At frame 3)))
    | 4 => st.updateCurrent (fun s =>
        let strBytes := cstrBytes (frame.drop 3)
        if validUtf8 strBytes then
          s.set_attribute attr (AttributeValue.String strBytes)
        else s)
    | _ => st

/-- FEATURE_ATTRIBUTE_RECORD (type 65): read the declared number of payload
bytes, then decode them with `attrApply`. -/
def attributeHandler (mem : List Nat) (st : PState) (len : Nat)
    (rest : List Nat) : Except PErr (PState × List Nat) :=
  match usizeSub len 6 with
  | .error e => .error e
  | .ok bufSize =>
    match readE bufSize rest with
    | .error e => .error e
    | .ok (buf, rest') => .ok (attrApply mem st buf, rest')

/-- FEATURE_GEOMETRY_RECORD_POINT (type 80): read the 16-byte {lat, lon}
payload and set it as the current feature's point geometry. -/
def pointHandler (st : PState) (len : Nat) (rest : List Nat) :
    Except PErr (PState × List Nat) :=
  match usizeSub len 6 with
  | .error e => .error e
  | .ok bufSize =>
    if bufSize ≠ 16 then .error .assertFail
    else
      match readE 16 rest with
      | .error e => .error e
      | .ok (b, rest') =>
        .ok (st.updateCurrent (fun s =>
              s.set_point_geometry { lat := u64At b 0, lon := u64At b 8 }),
             rest')

/-- The tessellation-skipping loop of the Area geometry handler: for each of
the `k` triangle primitives, skip the 1-byte primitive tag, read the 4-byte
vertex count, then skip the 32-byte bounding box and the `nvert × 2` 32-bit
coordinate floats.  Returns the cursor position after the last primitive;
reading the vertex count past the end of the payload is a short read. -/
def triLoop (payload : List Nat) : Nat → Nat → Except PErr Nat
  | 0, pos => .ok pos
  | k + 1, pos =>
    if pos + 1 + 4 ≤ payload.length then
      triLoop payload k (pos + 1 + 4 + 32 + u32At payload (pos + 1) * 8)
    else .error .truncated

/-- FEATURE_GEOMETRY_RECORD_AREA (type 82): read the whole payload, decode
the 44-byte fixed header, seek past `contour_count` 4-byte contour lengths,
run the tessellation skip, require the remaining bytes to divide evenly
into 16-byte LineElements (an `assert_eq!`), and store them as the current
feature's polygon pre-stitch edge array. -/
def areaHandler (st : PState) (len : Nat) (rest : List Nat) :
    Except PErr (PState × List Nat) :=
  match usizeSub len 6 with
  | .error e => .error e
  | .ok psize =>
    match readE psize rest with
    | .error e => .error e
    | .ok (payload, rest') =>
      match readE 44 payload with
      | .error e => .error e
      | .ok (hdr, _) =>
        match triLoop payload (u32At hdr 36) (44 + u32At hdr 32 * 4) with
        | .error e => .error e
        | .ok pos =>
          match usizeSub psize pos with
          | .error e => .error e
          | .ok remaining =>
            if remaining % 16 ≠ 0 then .error .assertFail
            else
              .ok (st.updateCurrent (fun s =>
                    s.set_polygon_geometry
                      (decodeLineElements (bytesAt payload pos remaining))),
                   rest')

/-- FEATURE_GEOMETRY_RECORD_LINE (type 81): read the whole payload, seek
past the 36-byte fixed header, require the rest to divide evenly into
16-byte LineElements (an `assert_eq!` whose argument already panics when
the payload is shorter than the header), and store them as the current
feature's line pre-stitch edge array. -/
def lineHandler (st : PState) (len : Nat) (rest : List Nat) :
    Except PErr (PState × List Nat) :=
  match usizeSub len 6 with
  | .error e => .error e
  | .ok psize =>
    match readE psize rest with
    | .error e => .error e
    | .ok (payload, rest') =>
      match usizeSub psize 36 with
      | .error e => .error e
      | .ok remaining =>
        if remaining % 16 ≠ 0 then .error .assertFail
        else
          .ok (st.updateCurrent (fun s =>
                s.set_line_geometry
                  (decodeLineElements (bytesAt payload 36 remaining))),
               rest')

/-- FEATURE_GEOMETRY_RECORD_MULTIPOINT (type 83): read the whole payload and
the 36-byte fixed header holding the point count `n`, then read
`size_of(f32) * n` bytes of point data — note: 4·n bytes, a quarter of the
3 × 4·n bytes that `n` interleaved (easting, northing, depth) float triples
occupy — and reinterpret that buffer as `3·n` floats
(`Vec::from_raw_parts(ptr, n*3, n)`), so every byte from offset `4·n`
onward of the reinterpreted frame is read from the ambient memory beyond
the allocation.  Each decoded triple is stored as one sounding point of the
current feature. -/
def multipointHandler (mem : List Nat) (st : PState) (len : Nat)
    (rest : List Nat) : Except PErr (PState × List Nat) :=
  match usizeSub len 6 with
  | .error e => .error e
  | .ok psize =>
    match readE psize rest with
    | .error e => .error e
    | .ok (payload, rest') =>
      match readE 36 payload with
      | .error e => .error e
      | .ok (hdr, _) =>
        let n := u32At hdr 32
        if 36 + 4 * n ≤ psize then
          let frame := bytesAt payload 36 (4 * n) ++ mem
          let pts := (List.range n).map (fun i =>
            { eastingBits := u32At frame (12 * i)
              northingBits := u32At frame (12 * i + 4)
              depthBits := u32At frame (12 * i + 8) : SoundingPoint })
          .ok (st.updateCurrent (fun s => s.set_multi_point_geometry pts),
               rest')
        else .error .truncated

/-- Decidable equality of `Except` results (not provided by the core
library), needed to evaluate the parser's outcome on concrete streams. -/
instance exceptDecEq {e a : Type} [DecidableEq e] [DecidableEq a] :
    DecidableEq (Except e a)
  | .error x, .error y =>
    if h : x = y then .isTrue (by rw [h])
    else .isFalse (fun hc => h (Except.error.inj hc))
  | .error _, .ok _ => .isFalse (fun hc => Except.noConfusion hc)
  | .ok _, .error _ => .isFalse (fun hc => Except.noConfusion hc)
  | .ok x, .ok y =>
    if h : x = y then .isTrue (by rw [h])
    else .isFalse (fun hc => h (Except.ok.inj hc))

/-- Result of processing one record header: either the loop terminates with
a final result, or it continues with an updated state and stream. -/
inductive StepRes where
  | done (r : Except PErr ChartFile)
  | next (st : PState) (s : List Nat)
deriving DecidableEq

/-- A handler outcome lifted into the loop: an error ends parsing with that
error, success continues the loop. -/
def liftH : Except PErr (PState × List Nat) → StepRes
  | .error e => .done (.error e)
  | .ok (st, s) => .next st s

/-- The record-type dispatch of `parse_file`'s loop body (the `match
record_base.get_record_type()`), branches in source order: type 0 is the
end-of-data marker, recognized types go to their handlers, and any other
type ends parsing successfully with the accumulated chart. -/
def dispatch (mem : List Nat) (st : PState) (t len : Nat) (rest : List Nat) :
    StepRes :=
  if t = 0 then .done (.ok st.toChart)
    else if t = 200 then liftH (serverstatHandler st len rest)
    else if t = 1 then liftH (versionHandler st len rest)
    else if t = 2 then liftH (cellNameHandler st len rest)
    else if t = 3 then liftH (publishdateHandler st len rest)
    else if t = 4 then liftH (editionHandler st len rest)
    else if t = 5 then liftH (updatedateHandler st len rest)
    else if t = 6 then liftH (updateHandler st len rest)
    else if t = 7 then liftH (nativescaleHandler st len rest)
    else if t = 9 then liftH (soundingdatumHandler st len rest)
    else if t = 8 then liftH (skipHandler st len rest)
    else if t = 100 then liftH (extentHandler st len rest)
    else if t = 98 then liftH (skipHandler st len rest)
    else if t = 99 then liftH (skipHandler st len rest)
    else if t = 64 then liftH (featureIdHandler st len rest)
    else if t = 65 then liftH (attributeHandler mem st len rest)
    else if t = 80 then liftH (pointHandler st len rest)
    else if t = 82 then liftH (areaHandler st len rest)
    else if t = 84 then liftH (skipHandler st len rest)
    else if t = 81 then liftH (lineHandler st len rest)
    else if t = 83 then liftH (multipointHandler mem st len rest)
    else if t = 96 then liftH (skipHandler st len rest)
    else if t = 85 then liftH (skipHandler st len rest)
    else if t = 97 then liftH (skipHandler st len rest)
    else if t = 86 then liftH (skipHandler st len rest)
    else if t = 101 then liftH (skipHandler st len rest)
    else .done (.ok st.toChart)

/-- One iteration of `parse_file`'s loop: read the 6-byte record header
{type: u16, length: u32}; a failed header read ends parsing successfully,
otherwise the record type and declared length are decoded from the header
and dispatched. -/
def step (mem : List Nat) (st : PState) (s : List Nat) : StepRes :=
  match readExact 6 s with
  | none => .done (.ok st.toChart)
  | some (hdr, rest) => dispatch mem st (u16At hdr 0) (u32At hdr 2) rest

/-- The record loop, fuel-indexed.  Every continuing step consumes the
6-byte header and at most the declared payload, so a fuel of one more than
the stream length never runs out. -/
def parseLoop (mem : List Nat) : Nat → PState → List Nat → Except PErr ChartFile
  | 0, st, _ => .ok st.toChart
  | fuel + 1, st, s =>
    match step mem st s with
    | .done r => r
    | .next st' s' => parseLoop mem fuel st' s'

/-- `ChartFile::parse_file` over a byte stream.  `mem` is the ambient
memory observed by the source's out-of-bounds reads (see `attrApply` and
`multipointHandler`); a run of the program corresponds to some `mem`. -/
def parse (mem : List Nat) (s : List Nat) : Except PErr ChartFile :=
  parseLoop mem (s.length + 1) initState s


/-- Record header encoder used by the concrete streams in the theorems
below: a u16 type then a u32 declared length, little-endian. -/
def recHeader (t len : Nat) : List Nat := encLE 2 t ++ encLE 4 len

theorem encLE_length (k v : Nat) : (encLE k v).length = k := by
  induction k generalizing v with
  | zero => simp [encLE]
  | succ k ih => simp [encLE, ih]

theorem leBytes_encLE {k v : Nat} (h : v < 256 ^ k) : leBytes (encLE k v) = v := by
  induction k generalizing v with
  | zero => simp [encLE, leBytes]; omega
  | succ k ih =>
    have hdiv : v / 256 < 256 ^ k := by
      rw [Nat.div_lt_iff_lt_mul (by omega)]
      calc v < 256 ^ (k + 1) := h
        _ = 256 ^ k * 256 := by ring
    simp [encLE, leBytes, ih hdiv]
    omega

theorem bytesAt_append (a b : List Nat) (n : Nat) :
    bytesAt (a ++ b) a.length n = b.take n := by
  simp [bytesAt]

theorem readExact_append (a b : List Nat) :
    readExact a.length (a ++ b) = some (a, b) := by
  simp [readExact]

theorem readE_append (a b : List Nat) : readE a.length (a ++ b) = .ok (a, b) := by
  simp [readE, readExact_append]

theorem readExact_eq_some {n : Nat} {s buf rest : List Nat}
    (h : readExact n s = some (buf, rest)) :
    buf = s.take n ∧ rest = s.drop n ∧ n ≤ s.length := by
  unfold readExact at h
  split at h <;> simp_all

theorem u16At_append_enc (a : List Nat) (v : Nat) (b : List Nat)
    (hv : v < 65536) : u16At (a ++ (encLE 2 v ++ b)) a.length = v := by
  unfold u16At
  rw [bytesAt_append, List.take_left' (encLE_length 2 v), leBytes_encLE]
  exact hv

theorem u32At_append_enc (a : List Nat) (v : Nat) (b : List Nat)
    (hv : v < 4294967296) : u32At (a ++ (encLE 4 v ++ b)) a.length = v := by
  unfold u32At
  rw [bytesAt_append, List.take_left' (encLE_length 4 v), leBytes_encLE]
  exact hv

theorem readExact_header (t len : Nat) (rest : List Nat) :
    readExact 6 (recHeader t len ++ rest) = some (recHeader t len, rest) := by
  have h : (recHeader t len).length = 6 := by
    simp [recHeader, encLE_length]
  rw [show (6 : Nat) = (recHeader t len).length from h.symm]
  exact readExact_append _ _

theorem u16At_recHeader (t len : Nat) (ht : t < 65536) :
    u16At (recHeader t len) 0 = t := by
  have := u16At_append_enc [] t (encLE 4 len) ht
  simpa [recHeader] using this

theorem u32At_recHeader (t len : Nat) (hl : len < 4294967296) :
    u32At (recHeader t len) 2 = len := by
  have h2 : (encLE 2 t).length = 2 := encLE_length 2 t
  have := u32At_append_enc (encLE 2 t) len [] hl
  simpa [recHeader, h2] using this

theorem usizeSub_error {a b : Nat} {e : PErr} (h : usizeSub a b = .error e) :
    e = .usizeUnderflow ∧ a < b := by
  unfold usizeSub at h
  split at h <;> simp_all

theorem usizeSub_ok {a b r : Nat} (h : usizeSub a b = .ok r) :
    r = a - b ∧ b ≤ a := by
  unfold usizeSub at h
  split at h <;> simp_all

theorem readE_error {n : Nat} {s : List Nat} {e : PErr}
    (h : readE n s = .error e) : e = .truncated := by
  unfold readE at h
  split at h <;> simp_all

theorem readE_ok {n : Nat} {s buf rest : List Nat}
    (h : readE n s = .ok (buf, rest)) :
    buf = s.take n ∧ rest = s.drop n ∧ n ≤ s.length := by
  unfold readE at h
  split at h
  · next p hp =>
    obtain ⟨rfl, rfl⟩ : p.1 = buf ∧ p.2 = rest := by
      cases p; simp_all
    exact readExact_eq_some (by simpa using hp)
  · simp_all

theorem triLoop_error {payload : List Nat} {k pos : Nat} {e : PErr}
    (h : triLoop payload k pos = .error e) : e = .truncated := by
  induction k generalizing pos with
  | zero => simp [triLoop] at h
  | succ k ih =>
    unfold triLoop at h
    split at h
    · exact ih h
    · simp_all

theorem updateCurrent_tail (st : PState) (f : S57 → S57) :
    (st.updateCurrent f).s57Rev.length = st.s57Rev.length ∧
    (st.updateCurrent f).s57Rev.tail = st.s57Rev.tail ∧
    (st.updateCurrent f).hasCurrent = st.hasCurrent := by
  unfold PState.updateCurrent
  split
  · split <;> simp_all
  · simp

theorem updateCurrent_not_current (st : PState) (f : S57 → S57)
    (h : st.hasCurrent = false) : st.updateCurrent f = st := by
  unfold PState.updateCurrent
  simp [h]


/-- Per-feature geometry preservation by a record of type `t`: every
geometry slot not belonging to record kind `t` is untouched. -/
def geomPreserved (t : Nat) (f f' : S57) : Prop :=
  (t ≠ 80 → f'.point_geometry = f.point_geometry) ∧
  (t ≠ 81 → f'.line_elements = f.line_elements) ∧
  (t ≠ 82 → f'.polygon_line_elements = f.polygon_line_elements) ∧
  (t ≠ 83 → f'.multi_point_geometry = f.multi_point_geometry)

theorem geomPreserved_refl (t : Nat) (f : S57) : geomPreserved t f f := by
  simp [geomPreserved]

theorem serverstatHandler_ok {st st' : PState} {len : Nat} {rest rest' : List Nat}
    (h : serverstatHandler st len rest = .ok (st', rest')) : st' = st := by
  unfold serverstatHandler at h
  split at h
  · simp_all
  · split at h
    · simp_all
    · split at h
      · simp_all
      · split at h
        · simp_all
        · split at h
          · simp_all
          · split at h
            · simp_all
            · simp_all

theorem versionHandler_ok {st st' : PState} {len : Nat} {rest rest' : List Nat}
    (h : versionHandler st len rest = .ok (st', rest')) : st' = st := by
  unfold versionHandler at h
  split at h
  · simp_all
  · split at h
    · simp_all
    · split at h
      · simp_all
      · split at h
        · simp_all
        · simp_all

theorem cellNameHandler_ok {st st' : PState} {len : Nat} {rest rest' : List Nat}
    (h : cellNameHandler st len rest = .ok (st', rest')) :
    st'.s57Rev = st.s57Rev ∧ st'.hasCurrent = st.hasCurrent := by
  unfold cellNameHandler readTextField at h
  repeat' split at h
  all_goals simp_all
  all_goals (obtain ⟨rfl, rfl⟩ := h; simp)

theorem publishdateHandler_ok {st st' : PState} {len : Nat} {rest rest' : List Nat}
    (h : publishdateHandler st len rest = .ok (st', rest')) :
    st'.s57Rev = st.s57Rev ∧ st'.hasCurrent = st.hasCurrent := by
  unfold publishdateHandler readTextField at h
  repeat' split at h
  all_goals simp_all
  all_goals (obtain ⟨rfl, rfl⟩ := h; simp)

theorem updatedateHandler_ok {st st' : PState} {len : Nat} {rest rest' : List Nat}
    (h : updatedateHandler st len rest = .ok (st', rest')) :
    st'.s57Rev = st.s57Rev ∧ st'.hasCurrent = st.hasCurrent := by
  unfold updatedateHandler readTextField at h
  repeat' split at h
  all_goals simp_all
  all_goals (obtain ⟨rfl, rfl⟩ := h; simp)

theorem soundingdatumHandler_ok {st st' : PState} {len : Nat} {rest rest' : List Nat}
    (h : soundingdatumHandler st len rest = .ok (st', rest')) :
    st'.s57Rev = st.s57Rev ∧ st'.hasCurrent = st.hasCurrent := by
  unfold soundingdatumHandler readTextField at h
  repeat' split at h
  all_goals simp_all
  all_goals (obtain ⟨rfl, rfl⟩ := h; simp)

theorem editionHandler_ok {st st' : PState} {len : Nat} {rest rest' : List Nat}
    (h : editionHandler st len rest = .ok (st', rest')) :
    st'.s57Rev = st.s57Rev ∧ st'.hasCurrent = st.hasCurrent := by
  unfold editionHandler at h
  repeat' split at h
  all_goals simp_all
  all_goals (obtain ⟨rfl, rfl⟩ := h; simp)

theorem updateHandler_ok {st st' : PState} {len : Nat} {rest rest' : List Nat}
    (h : updateHandler st len rest = .ok (st', rest')) :
    st'.s57Rev = st.s57Rev ∧ st'.hasCurrent = st.hasCurrent := by
  unfold updateHandler at h
  repeat' split at h
  all_goals simp_all
  all_goals (obtain ⟨rfl, rfl⟩ := h; simp)

theorem nativescaleHandler_ok {st st' : PState} {len : Nat} {rest rest' : List Nat}
    (h : nativescaleHandler st len rest = .ok (st', rest')) :
    st'.s57Rev = st.s57Rev ∧ st'.hasCurrent = st.hasCurrent := by
  unfold nativescaleHandler at h
  repeat' split at h
  all_goals simp_all
  all_goals (obtain ⟨rfl, rfl⟩ := h; simp)

theorem skipHandler_ok {st st' : PState} {len : Nat} {rest rest' : List Nat}
    (h : skipHandler st len rest = .ok (st', rest')) : st' = st := by
  unfold skipHandler at h
  repeat' split at h
  all_goals simp_all

theorem extentHandler_ok {st st' : PState} {len : Nat} {rest rest' : List Nat}
    (h : extentHandler st len rest = .ok (st', rest')) :
    st'.s57Rev = st.s57Rev ∧ st'.hasCurrent = st.hasCurrent := by
  unfold extentHandler at h
  repeat' split at h
  all_goals simp_all
  all_goals (obtain ⟨rfl, rfl⟩ := h; simp)

theorem featureIdHandler_ok {st st' : PState} {len : Nat} {rest rest' : List Nat}
    (h : featureIdHandler st len rest = .ok (st', rest')) :
    ∃ b, readE 5 rest = .ok (b, rest') ∧
      st' = st.pushFeature (S57.fromTypeCode (u16At b 0)) := by
  unfold featureIdHandler at h
  split at h
  · simp_all
  · next bufSize hsub =>
    split at h
    · simp_all
    · split at h
      · simp_all
      · next b rest2 hread =>
        simp only [Except.ok.injEq, Prod.mk.injEq] at h
        obtain ⟨rfl, rfl⟩ := h
        exact ⟨b, hread, rfl⟩

/-- Whatever `attrApply` does, it either leaves the state unchanged or
applies through the current-feature cursor a mutation that only touches
the attribute mapping. -/
theorem attrApply_cases (mem : List Nat) (st : PState) (buf : List Nat) :
    attrApply mem st buf = st ∨
    ∃ g : S57 → S57,
      (∀ f, (g f).point_geometry = f.point_geometry ∧
            (g f).line_elements = f.line_elements ∧
            (g f).polygon_line_elements = f.polygon_line_elements ∧
            (g f).multi_point_geometry = f.multi_point_geometry) ∧
      attrApply mem st buf = st.updateCurrent g := by
  unfold attrApply
  dsimp only
  split
  · exact Or.inl rfl
  · split
    · exact Or.inr ⟨_, fun f => by simp [S57.set_attribute], rfl⟩
    · exact Or.inr ⟨_, fun f => by simp [S57.set_attribute], rfl⟩
    · refine Or.inr ⟨_, fun f => ?_, rfl⟩
      split <;> simp [S57.set_attribute]
    · exact Or.inl rfl

theorem attributeHandler_ok {mem : List Nat} {st st' : PState} {len : Nat}
    {rest rest' : List Nat}
    (h : attributeHandler mem st len rest = .ok (st', rest')) :
    ∃ buf, readE (len - 6) rest = .ok (buf, rest') ∧ 6 ≤ len ∧
      st' = attrApply mem st buf := by
  unfold attributeHandler at h
  split at h
  · simp_all
  · next bufSize hsub =>
    obtain ⟨rfl, hle⟩ := usizeSub_ok hsub
    split at h
    · simp_all
    · next buf rest2 hread =>
      simp only [Except.ok.injEq, Prod.mk.injEq] at h
      obtain ⟨rfl, rfl⟩ := h
      exact ⟨buf, hread, hle, rfl⟩

theorem pointHandler_ok {st st' : PState} {len : Nat} {rest rest' : List Nat}
    (h : pointHandler st len rest = .ok (st', rest')) :
    ∃ b, readE 16 rest = .ok (b, rest') ∧ 6 ≤ len ∧ len - 6 = 16 ∧
      st' = st.updateCurrent (fun s =>
        s.set_point_geometry { lat := u64At b 0, lon := u64At b 8 }) := by
  unfold pointHandler at h
  split at h
  · simp_all
  · next bufSize hsub =>
    obtain ⟨rfl, hle⟩ := usizeSub_ok hsub
    split at h
    · simp_all
    · next hsz =>
      split at h
      · simp_all
      · next b rest2 hread =>
        simp only [Except.ok.injEq, Prod.mk.injEq] at h
        obtain ⟨rfl, rfl⟩ := h
        exact ⟨b, hread, hle, by omega, rfl⟩

theorem areaHandler_ok {st st' : PState} {len : Nat} {rest rest' : List Nat}
    (h : areaHandler st len rest = .ok (st', rest')) :
    ∃ payload els, readE (len - 6) rest = .ok (payload, rest') ∧ 6 ≤ len ∧
      st' = st.updateCurrent (fun s => s.set_polygon_geometry els) := by
  unfold areaHandler at h
  split at h
  · simp_all
  · next psize hsub =>
    obtain ⟨rfl, hle⟩ := usizeSub_ok hsub
    split at h
    · simp_all
    · next payload rest2 hread =>
      split at h
      · simp_all
      · split at h
        · simp_all
        · split at h
          · simp_all
          · split at h
            · simp_all
            · simp only [Except.ok.injEq, Prod.mk.injEq] at h
              obtain ⟨rfl, rfl⟩ := h
              exact ⟨payload, _, hread, hle, rfl⟩

theorem lineHandler_ok {st st' : PState} {len : Nat} {rest rest' : List Nat}
    (h : lineHandler st len rest = .ok (st', rest')) :
    ∃ payload els, readE (len - 6) rest = .ok (payload, rest') ∧ 6 ≤ len ∧
      st' = st.updateCurrent (fun s => s.set_line_geometry els) := by
  unfold lineHandler at h
  split at h
  · simp_all
  · next psize hsub =>
    obtain ⟨rfl, hle⟩ := usizeSub_ok hsub
    split at h
    · simp_all
    · next payload rest2 hread =>
      split at h
      · simp_all
      · split at h
        · simp_all
        · simp only [Except.ok.injEq, Prod.mk.injEq] at h
          obtain ⟨rfl, rfl⟩ := h
          exact ⟨payload, _, hread, hle, rfl⟩

theorem multipointHandler_ok {mem : List Nat} {st st' : PState} {len : Nat}
    {rest rest' : List Nat}
    (h : multipointHandler mem st len rest = .ok (st', rest')) :
    ∃ payload pts, readE (len - 6) rest = .ok (payload, rest') ∧ 6 ≤ len ∧
      st' = st.updateCurrent (fun s => s.set_multi_point_geometry pts) := by
  unfold multipointHandler at h
  split at h
  · simp_all
  · next psize hsub =>
    obtain ⟨rfl, hle⟩ := usizeSub_ok hsub
    split at h
    · simp_all
    · next payload rest2 hread =>
      split at h
      · simp_all
      · dsimp only at h
        split at h
        · simp only [Except.ok.injEq, Prod.mk.injEq] at h
          obtain ⟨rfl, rfl⟩ := h
          exact ⟨payload, _, hread, hle, rfl⟩
        · simp_all

theorem readExact_none_iff {n : Nat} {s : List Nat} :
    readExact n s = none ↔ s.length < n := by
  unfold readExact
  split <;> simp <;> omega

theorem usizeSub_err_iff {a b : Nat} {e : PErr} :
    usizeSub a b = .error e ↔ (a < b ∧ e = .usizeUnderflow) := by
  unfold usizeSub
  split
  · next hba =>
    simp only [reduceCtorEq, false_iff]
    intro hc
    omega
  · next hba =>
    simp only [Except.error.injEq]
    constructor
    · intro h
      exact ⟨by omega, h.symm⟩
    · intro h
      exact h.2.symm

theorem readE_err_iff {n : Nat} {s : List Nat} {e : PErr} :
    readE n s = .error e ↔ (s.length < n ∧ e = .truncated) := by
  unfold readE
  cases hre : readExact n s with
  | none =>
    rw [readExact_none_iff] at hre
    simp only [Except.error.injEq]
    constructor
    · intro h
      exact ⟨hre, h.symm⟩
    · intro h
      exact h.2.symm
  | some p =>
    have hlen : ¬ s.length < n := by
      unfold readExact at hre
      split at hre <;> simp_all
    simp [hlen]

theorem readTextField_err {len : Nat} {rest : List Nat} {e : PErr}
    (h : readTextField len rest = .error e) :
    e = PErr.usizeUnderflow ∨ e = PErr.truncated := by
  unfold readTextField at h
  split at h
  · next e2 hsub =>
    simp only [Except.error.injEq] at h
    subst h
    exact Or.inl (usizeSub_error hsub).1
  · split at h
    · next e2 hread =>
      simp only [Except.error.injEq] at h
      subst h
      exact Or.inr (readE_error hread)
    · simp_all

theorem serverstatHandler_err {st : PState} {len : Nat} {rest : List Nat} {e : PErr}
    (h : serverstatHandler st len rest = .error e) :
    e ≠ PErr.unsupportedVersion := by
  unfold serverstatHandler at h
  repeat' split at h
  all_goals intro hcon
  all_goals subst hcon
  all_goals simp_all [usizeSub_err_iff, readE_err_iff]

theorem cellNameHandler_err {st : PState} {len : Nat} {rest : List Nat} {e : PErr}
    (h : cellNameHandler st len rest = .error e) :
    e ≠ PErr.unsupportedVersion := by
  unfold cellNameHandler at h
  intro hcon
  subst hcon
  split at h
  · next e2 heq =>
    simp only [Except.error.injEq] at h
    rcases readTextField_err (h ▸ heq) with h2 | h2 <;> simp_all
  · simp_all
  · simp_all

theorem publishdateHandler_err {st : PState} {len : Nat} {rest : List Nat} {e : PErr}
    (h : publishdateHandler st len rest = .error e) :
    e ≠ PErr.unsupportedVersion := by
  unfold publishdateHandler at h
  intro hcon
  subst hcon
  split at h
  · next e2 heq =>
    simp only [Except.error.injEq] at h
    rcases readTextField_err (h ▸ heq) with h2 | h2 <;> simp_all
  · simp_all
  · simp_all

theorem updatedateHandler_err {st : PState} {len : Nat} {rest : List Nat} {e : PErr}
    (h : updatedateHandler st len rest = .error e) :
    e ≠ PErr.unsupportedVersion := by
  unfold updatedateHandler at h
  intro hcon
  subst hcon
  split at h
  · next e2 heq =>
    simp only [Except.error.injEq] at h
    rcases readTextField_err (h ▸ heq) with h2 | h2 <;> simp_all
  · simp_all
  · simp_all

theorem soundingdatumHandler_err {st : PState} {len : Nat} {rest : List Nat} {e : PErr}
    (h : soundingdatumHandler st len rest = .error e) :
    e ≠ PErr.unsupportedVersion := by
  unfold soundingdatumHandler at h
  intro hcon
  subst hcon
  split at h
  · next e2 heq =>
    simp only [Except.error.injEq] at h
    rcases readTextField_err (h ▸ heq) with h2 | h2 <;> simp_all
  · simp_all
  · simp_all

theorem editionHandler_err {st : PState} {len : Nat} {rest : List Nat} {e : PErr}
    (h : editionHandler st len rest = .error e) :
    e ≠ PErr.unsupportedVersion := by
  unfold editionHandler at h
  repeat' split at h
  all_goals intro hcon
  all_goals subst hcon
  all_goals simp_all [usizeSub_err_iff, readE_err_iff]

theorem updateHandler_err {st : PState} {len : Nat} {rest : List Nat} {e : PErr}
    (h : updateHandler st len rest = .error e) :
    e ≠ PErr.unsupportedVersion := by
  unfold updateHandler at h
  repeat' split at h
  all_goals intro hcon
  all_goals subst hcon
  all_goals simp_all [usizeSub_err_iff, readE_err_iff]

theorem nativescaleHandler_err {st : PState} {len : Nat} {rest : List Nat} {e : PErr}
    (h : nativescaleHandler st len rest = .error e) :
    e ≠ PErr.unsupportedVersion := by
  unfold nativescaleHandler at h
  repeat' split at h
  all_goals intro hcon
  all_goals subst hcon
  all_goals simp_all [usizeSub_err_iff, readE_err_iff]

theorem skipHandler_err {st : PState} {len : Nat} {rest : List Nat} {e : PErr}
    (h : skipHandler st len rest = .error e) :
    e ≠ PErr.unsupportedVersion := by
  unfold skipHandler at h
  repeat' split at h
  all_goals intro hcon
  all_goals subst hcon
  all_goals simp_all [usizeSub_err_iff, readE_err_iff]

theorem extentHandler_err {st : PState} {len : Nat} {rest : List Nat} {e : PErr}
    (h : extentHandler st len rest = .error e) :
    e ≠ PErr.unsupportedVersion := by
  unfold extentHandler at h
  repeat' split at h
  all_goals intro hcon
  all_goals subst hcon
  all_goals simp_all [usizeSub_err_iff, readE_err_iff]

theorem featureIdHandler_err {st : PState} {len : Nat} {rest : List Nat} {e : PErr}
    (h : featureIdHandler st len rest = .error e) :
    e ≠ PErr.unsupportedVersion := by
  unfold featureIdHandler at h
  repeat' split at h
  all_goals intro hcon
  all_goals subst hcon
  all_goals simp_all [usizeSub_err_iff, readE_err_iff]

theorem pointHandler_err {st : PState} {len : Nat} {rest : List Nat} {e : PErr}
    (h : pointHandler st len rest = .error e) :
    e ≠ PErr.unsupportedVersion := by
  unfold pointHandler at h
  repeat' split at h
  all_goals intro hcon
  all_goals subst hcon
  all_goals simp_all [usizeSub_err_iff, readE_err_iff]

theorem lineHandler_err {st : PState} {len : Nat} {rest : List Nat} {e : PErr}
    (h : lineHandler st len rest = .error e) :
    e ≠ PErr.unsupportedVersion := by
  unfold lineHandler at h
  repeat' split at h
  all_goals intro hcon
  all_goals subst hcon
  all_goals simp_all [usizeSub_err_iff, readE_err_iff]

theorem attributeHandler_err {mem : List Nat} {st : PState} {len : Nat}
    {rest : List Nat} {e : PErr}
    (h : attributeHandler mem st len rest = .error e) :
    e ≠ PErr.unsupportedVersion := by
  unfold attributeHandler at h
  repeat' split at h
  all_goals intro hcon
  all_goals subst hcon
  all_goals simp_all [usizeSub_err_iff, readE_err_iff]

theorem areaHandler_err {st : PState} {len : Nat} {rest : List Nat} {e : PErr}
    (h : areaHandler st len rest = .error e) :
    e ≠ PErr.unsupportedVersion := by
  unfold areaHandler at h
  intro hcon
  subst hcon
  split at h
  · simp_all [usizeSub_err_iff]
  · split at h
    · simp_all [readE_err_iff]
    · split at h
      · simp_all [readE_err_iff]
      · split at h
        · next e2 htri =>
          simp only [Except.error.injEq] at h
          subst h
          exact absurd (triLoop_error htri) (by simp)
        · split at h
          · simp_all [usizeSub_err_iff]
          · split at h
            · simp_all
            · simp_all

theorem multipointHandler_err {mem : List Nat} {st : PState} {len : Nat}
    {rest : List Nat} {e : PErr}
    (h : multipointHandler mem st len rest = .error e) :
    e ≠ PErr.unsupportedVersion := by
  unfold multipointHandler at h
  intro hcon
  subst hcon
  split at h
  · simp_all [usizeSub_err_iff]
  · split at h
    · simp_all [readE_err_iff]
    · split at h
      · simp_all [readE_err_iff]
      · dsimp only at h
        split at h <;> simp_all

/-- The only path on which the version handler reports UnsupportedVersion:
the declared length passed its range check, the payload was exactly two
bytes, and the decoded version is below 201. -/
theorem versionHandler_uv {st : PState} {len : Nat} {rest : List Nat}
    (h : versionHandler st len rest = .error .unsupportedVersion) :
    6 ≤ len ∧ len < 16 ∧ len - 6 = 2 ∧
      ∃ b rest', readE 2 rest = .ok (b, rest') ∧ u16At b 0 < 201 := by
  unfold versionHandler at h
  split at h
  · simp_all
  · next hrange =>
    split at h
    · simp_all
    · next hsz =>
      split at h
      · simp_all [readE_err_iff]
      · next b rest2 hread =>
        split at h
        · next hver =>
          refine ⟨by omega, by omega, by omega, b, rest2, hread, hver⟩
        · simp_all

theorem liftH_next {r : Except PErr (PState × List Nat)} {st' : PState}
    {s' : List Nat} (h : liftH r = .next st' s') : r = .ok (st', s') := by
  cases r with
  | error e => simp [liftH] at h
  | ok p =>
    obtain ⟨a, b⟩ := p
    simp only [liftH, StepRes.next.injEq] at h
    rw [h.1, h.2]

theorem liftH_done_error {r : Except PErr (PState × List Nat)} {e : PErr}
    (h : liftH r = .done (.error e)) : r = .error e := by
  cases r with
  | error e2 =>
    simp only [liftH, StepRes.done.injEq, Except.error.injEq] at h
    rw [h]
  | ok p =>
    obtain ⟨a, b⟩ := p
    simp [liftH] at h

theorem forall₂_geomPreserved_refl (t : Nat) (l : List S57) :
    List.Forall₂ (geomPreserved t) l l :=
  List.forall₂_same.2 (fun x _ => geomPreserved_refl t x)

theorem updateCurrent_forall₂ (st : PState) (g : S57 → S57) (t : Nat)
    (hg : ∀ f, geomPreserved t f (g f)) :
    List.Forall₂ (geomPreserved t) st.s57Rev (st.updateCurrent g).s57Rev := by
  unfold PState.updateCurrent
  split
  · split
    · next heq => rw [heq]; exact List.Forall₂.nil
    · next c r2 heq =>
      rw [heq]
      exact List.Forall₂.cons (hg c) (forall₂_geomPreserved_refl t r2)
  · exact forall₂_geomPreserved_refl t _

/-- Case analysis of the record dispatch when the loop continues: either the
record was a Feature-Identification record and exactly one fresh feature of
the resolved type was appended (becoming the current feature at the head of
`s57Rev`), or it was any other recognized record, which preserves the
feature count, every feature except the current one, the cursor flag, all
geometry slots not of the record's own kind — and, when no current feature
exists, for attribute and geometry records the whole state (the payload is
still consumed). -/
theorem dispatch_next_master {mem : List Nat} {st : PState} {t len : Nat}
    {rest : List Nat} {st' : PState} {s' : List Nat}
    (h : dispatch mem st t len rest = .next st' s') :
    (t = 64 ∧ ∃ b, readE 5 rest = .ok (b, s') ∧
        st' = st.pushFeature (S57.fromTypeCode (u16At b 0))) ∨
    (t ≠ 64 ∧
      st'.s57Rev.length = st.s57Rev.length ∧
      st'.s57Rev.tail = st.s57Rev.tail ∧
      st'.hasCurrent = st.hasCurrent ∧
      List.Forall₂ (geomPreserved t) st.s57Rev st'.s57Rev ∧
      (st.hasCurrent = false → (t = 65 ∨ t = 80 ∨ t = 81 ∨ t = 82 ∨ t = 83) →
        st' = st ∧ 6 ≤ len ∧ s' = rest.drop (len - 6))) := by
  delta dispatch at h
  by_cases hb0 : t = 0
  · rw [if_pos hb0] at h
    exact StepRes.noConfusion h
  rw [if_neg hb0] at h
  by_cases hb1 : t = 200
  · rw [if_pos hb1] at h
    subst hb1
    have hok := liftH_next h
    have hst := serverstatHandler_ok hok
    subst hst
    exact Or.inr ⟨by decide, rfl, rfl, rfl, forall₂_geomPreserved_refl _ _,
      fun _ hmem => absurd hmem (by decide)⟩
  rw [if_neg hb1] at h
  by_cases hb2 : t = 1
  · rw [if_pos hb2] at h
    subst hb2
    have hok := liftH_next h
    have hst := versionHandler_ok hok
    subst hst
    exact Or.inr ⟨by decide, rfl, rfl, rfl, forall₂_geomPreserved_refl _ _,
      fun _ hmem => absurd hmem (by decide)⟩
  rw [if_neg hb2] at h
  by_cases hb3 : t = 2
  · rw [if_pos hb3] at h
    subst hb3
    have hok := liftH_next h
    obtain ⟨hrev, hcur⟩ := cellNameHandler_ok hok
    refine Or.inr ⟨by decide, by rw [hrev], by rw [hrev], hcur, ?_,
      fun _ hmem => absurd hmem (by decide)⟩
    rw [hrev]
    exact forall₂_geomPreserved_refl _ _
  rw [if_neg hb3] at h
  by_cases hb4 : t = 3
  · rw [if_pos hb4] at h
    subst hb4
    have hok := liftH_next h
    obtain ⟨hrev, hcur⟩ := publishdateHandler_ok hok
    refine Or.inr ⟨by decide, by rw [hrev], by rw [hrev], hcur, ?_,
      fun _ hmem => absurd hmem (by decide)⟩
    rw [hrev]
    exact forall₂_geomPreserved_refl _ _
  rw [if_neg hb4] at h
  by_cases hb5 : t = 4
  · rw [if_pos hb5] at h
    subst hb5
    have hok := liftH_next h
    obtain ⟨hrev, hcur⟩ := editionHandler_ok hok
    refine Or.inr ⟨by decide, by rw [hrev], by rw [hrev], hcur, ?_,
      fun _ hmem => absurd hmem (by decide)⟩
    rw [hrev]
    exact forall₂_geomPreserved_refl _ _
  rw [if_neg hb5] at h
  by_cases hb6 : t = 5
  · rw [if_pos hb6] at h
    subst hb6
    have hok := liftH_next h
    obtain ⟨hrev, hcur⟩ := updatedateHandler_ok hok
    refine Or.inr ⟨by decide, by rw [hrev], by rw [hrev], hcur, ?_,
      fun _ hmem => absurd hmem (by decide)⟩
    rw [hrev]
    exact forall₂_geomPreserved_refl _ _
  rw [if_neg hb6] at h
  by_cases hb7 : t = 6
  · rw [if_pos hb7] at h
    subst hb7
    have hok := liftH_next h
    obtain ⟨hrev, hcur⟩ := updateHandler_ok hok
    refine Or.inr ⟨by decide, by rw [hrev], by rw [hrev], hcur, ?_,
      fun _ hmem => absurd hmem (by decide)⟩
    rw [hrev]
    exact forall₂_geomPreserved_refl _ _
  rw [if_neg hb7] at h
  by_cases hb8 : t = 7
  · rw [if_pos hb8] at h
    subst hb8
    have hok := liftH_next h
    obtain ⟨hrev, hcur⟩ := nativescaleHandler_ok hok
    refine Or.inr ⟨by decide, by rw [hrev], by rw [hrev], hcur, ?_,
      fun _ hmem => absurd hmem (by decide)⟩
    rw [hrev]
    exact forall₂_geomPreserved_refl _ _
  rw [if_neg hb8] at h
  by_cases hb9 : t = 9
  · rw [if_pos hb9] at h
    subst hb9
    have hok := liftH_next h
    obtain ⟨hrev, hcur⟩ := soundingdatumHandler_ok hok
    refine Or.inr ⟨by decide, by rw [hrev], by rw [hrev], hcur, ?_,
      fun _ hmem => absurd hmem (by decide)⟩
    rw [hrev]
    exact forall₂_geomPreserved_refl _ _
  rw [if_neg hb9] at h
  by_cases hb10 : t = 8
  · rw [if_pos hb10] at h
    subst hb10
    have hok := liftH_next h
    have hst := skipHandler_ok hok
    subst hst
    exact Or.inr ⟨by decide, rfl, rfl, rfl, forall₂_geomPreserved_refl _ _,
      fun _ hmem => absurd hmem (by decide)⟩
  rw [if_neg hb10] at h
  by_cases hb11 : t = 100
  · rw [if_pos hb11] at h
    subst hb11
    have hok := liftH_next h
    obtain ⟨hrev, hcur⟩ := extentHandler_ok hok
    refine Or.inr ⟨by decide, by rw [hrev], by rw [hrev], hcur, ?_,
      fun _ hmem => absurd hmem (by decide)⟩
    rw [hrev]
    exact forall₂_geomPreserved_refl _ _
  rw [if_neg hb11] at h
  by_cases hb12 : t = 98
  · rw [if_pos hb12] at h
    subst hb12
    have hok := liftH_next h
    have hst := skipHandler_ok hok
    subst hst
    exact Or.inr ⟨by decide, rfl, rfl, rfl, forall₂_geomPreserved_refl _ _,
      fun _ hmem => absurd hmem (by decide)⟩
  rw [if_neg hb12] at h
  by_cases hb13 : t = 99
  · rw [if_pos hb13] at h
    subst hb13
    have hok := liftH_next h
    have hst := skipHandler_ok hok
    subst hst
    exact Or.inr ⟨by decide, rfl, rfl, rfl, forall₂_geomPreserved_refl _ _,
      fun _ hmem => absurd hmem (by decide)⟩
  rw [if_neg hb13] at h
  by_cases hb14 : t = 64
  · rw [if_pos hb14] at h
    subst hb14
    have hok := liftH_next h
    obtain ⟨b, hread, hst⟩ := featureIdHandler_ok hok
    exact Or.inl ⟨rfl, b, hread, hst⟩
  rw [if_neg hb14] at h
  by_cases hb15 : t = 65
  · rw [if_pos hb15] at h
    subst hb15
    have hok := liftH_next h
    obtain ⟨buf, hread, hle, hst⟩ := attributeHandler_ok hok
    have hdrop := (readE_ok hread).2.1
    rcases attrApply_cases mem st buf with hcase | ⟨g, hg, hcase⟩
    · rw [hcase] at hst
      subst hst
      exact Or.inr ⟨by decide, rfl, rfl, rfl, forall₂_geomPreserved_refl _ _,
        fun _ _ => ⟨rfl, hle, hdrop⟩⟩
    · rw [hcase] at hst
      subst hst
      obtain ⟨hlen2, htail, hcur⟩ := updateCurrent_tail st g
      refine Or.inr ⟨by decide, hlen2, htail, hcur, ?_, ?_⟩
      · exact updateCurrent_forall₂ st g 65 (fun f =>
          ⟨fun _ => (hg f).1, fun _ => (hg f).2.1,
           fun _ => (hg f).2.2.1, fun _ => (hg f).2.2.2⟩)
      · intro hcF _
        exact ⟨updateCurrent_not_current st g hcF, hle, hdrop⟩
  rw [if_neg hb15] at h
  by_cases hb16 : t = 80
  · rw [if_pos hb16] at h
    subst hb16
    have hok := liftH_next h
    obtain ⟨b, hread, hle, hsz, hst⟩ := pointHandler_ok hok
    have hdrop := (readE_ok hread).2.1
    subst hst
    obtain ⟨hlen2, htail, hcur⟩ := updateCurrent_tail st _
    refine Or.inr ⟨by decide, hlen2, htail, hcur, ?_, ?_⟩
    · exact updateCurrent_forall₂ st _ 80 (fun f => by
        simp [geomPreserved, S57.set_point_geometry])
    · intro hcF _
      refine ⟨updateCurrent_not_current st _ hcF, hle, ?_⟩
      rw [hsz]
      exact hdrop
  rw [if_neg hb16] at h
  by_cases hb17 : t = 82
  · rw [if_pos hb17] at h
    subst hb17
    have hok := liftH_next h
    obtain ⟨payload, els, hread, hle, hst⟩ := areaHandler_ok hok
    have hdrop := (readE_ok hread).2.1
    subst hst
    obtain ⟨hlen2, htail, hcur⟩ := updateCurrent_tail st _
    refine Or.inr ⟨by decide, hlen2, htail, hcur, ?_, ?_⟩
    · exact updateCurrent_forall₂ st _ 82 (fun f => by
        simp [geomPreserved, S57.set_polygon_geometry])
    · intro hcF _
      exact ⟨updateCurrent_not_current st _ hcF, hle, hdrop⟩
  rw [if_neg hb17] at h
  by_cases hb18 : t = 84
  · rw [if_pos hb18] at h
    subst hb18
    have hok := liftH_next h
    have hst := skipHandler_ok hok
    subst hst
    exact Or.inr ⟨by decide, rfl, rfl, rfl, forall₂_geomPreserved_refl _ _,
      fun _ hmem => absurd hmem (by decide)⟩
  rw [if_neg hb18] at h
  by_cases hb19 : t = 81
  · rw [if_pos hb19] at h
    subst hb19
    have hok := liftH_next h
    obtain ⟨payload, els, hread, hle, hst⟩ := lineHandler_ok hok
    have hdrop := (readE_ok hread).2.1
    subst hst
    obtain ⟨hlen2, htail, hcur⟩ := updateCurrent_tail st _
    refine Or.inr ⟨by decide, hlen2, htail, hcur, ?_, ?_⟩
    · exact updateCurrent_forall₂ st _ 81 (fun f => by
        simp [geomPreserved, S57.set_line_geometry])
    · intro hcF _
      exact ⟨updateCurrent_not_current st _ hcF, hle, hdrop⟩
  rw [if_neg hb19] at h
  by_cases hb20 : t = 83
  · rw [if_pos hb20] at h
    subst hb20
    have hok := liftH_next h
    obtain ⟨payload, els, hread, hle, hst⟩ := multipointHandler_ok hok
    have hdrop := (readE_ok hread).2.1
    subst hst
    obtain ⟨hlen2, htail, hcur⟩ := updateCurrent_tail st _
    refine Or.inr ⟨by decide, hlen2, htail, hcur, ?_, ?_⟩
    · exact updateCurrent_forall₂ st _ 83 (fun f => by
        simp [geomPreserved, S57.set_multi_point_geometry])
    · intro hcF _
      exact ⟨updateCurrent_not_current st _ hcF, hle, hdrop⟩
  rw [if_neg hb20] at h
  by_cases hb21 : t = 96
  · rw [if_pos hb21] at h
    subst hb21
    have hok := liftH_next h
    have hst := skipHandler_ok hok
    subst hst
    exact Or.inr ⟨by decide, rfl, rfl, rfl, forall₂_geomPreserved_refl _ _,
      fun _ hmem => absurd hmem (by decide)⟩
  rw [if_neg hb21] at h
  by_cases hb22 : t = 85
  · rw [if_pos hb22] at h
    subst hb22
    have hok := liftH_next h
    have hst := skipHandler_ok hok
    subst hst
    exact Or.inr ⟨by decide, rfl, rfl, rfl, forall₂_geomPreserved_refl _ _,
      fun _ hmem => absurd hmem (by decide)⟩
  rw [if_neg hb22] at h
  by_cases hb23 : t = 97
  · rw [if_pos hb23] at h
    subst hb23
    have hok := liftH_next h
    have hst := skipHandler_ok hok
    subst hst
    exact Or.inr ⟨by decide, rfl, rfl, rfl, forall₂_geomPreserved_refl _ _,
      fun _ hmem => absurd hmem (by decide)⟩
  rw [if_neg hb23] at h
  by_cases hb24 : t = 86
  · rw [if_pos hb24] at h
    subst hb24
    have hok := liftH_next h
    have hst := skipHandler_ok hok
    subst hst
    exact Or.inr ⟨by decide, rfl, rfl, rfl, forall₂_geomPreserved_refl _ _,
      fun _ hmem => absurd hmem (by decide)⟩
  rw [if_neg hb24] at h
  by_cases hb25 : t = 101
  · rw [if_pos hb25] at h
    subst hb25
    have hok := liftH_next h
    have hst := skipHandler_ok hok
    subst hst
    exact Or.inr ⟨by decide, rfl, rfl, rfl, forall₂_geomPreserved_refl _ _,
      fun _ hmem => absurd hmem (by decide)⟩
  rw [if_neg hb25] at h
  exact StepRes.noConfusion h

theorem dispatch_uv {mem : List Nat} {st : PState} {t len : Nat}
    {rest : List Nat}
    (h : dispatch mem st t len rest = .done (.error .unsupportedVersion)) :
    t = 1 ∧ 6 ≤ len ∧ len < 16 ∧ len - 6 = 2 ∧
      ∃ b rest', readE 2 rest = .ok (b, rest') ∧ u16At b 0 < 201 := by
  delta dispatch at h
  by_cases hb0 : t = 0
  · rw [if_pos hb0] at h
    exact Except.noConfusion (StepRes.done.inj h)
  rw [if_neg hb0] at h
  by_cases hb1 : t = 200
  · rw [if_pos hb1] at h
    have herr := liftH_done_error h
    exact absurd rfl (serverstatHandler_err herr)
  rw [if_neg hb1] at h
  by_cases hb2 : t = 1
  · rw [if_pos hb2] at h
    subst hb2
    have herr := liftH_done_error h
    obtain ⟨h6, h16, h2b, b, rest2, hread, hver⟩ := versionHandler_uv herr
    exact ⟨rfl, h6, h16, h2b, b, rest2, hread, hver⟩
  rw [if_neg hb2] at h
  by_cases hb3 : t = 2
  · rw [if_pos hb3] at h
    have herr := liftH_done_error h
    exact absurd rfl (cellNameHandler_err herr)
  rw [if_neg hb3] at h
  by_cases hb4 : t = 3
  · rw [if_pos hb4] at h
    have herr := liftH_done_error h
    exact absurd rfl (publishdateHandler_err herr)
  rw [if_neg hb4] at h
  by_cases hb5 : t = 4
  · rw [if_pos hb5] at h
    have herr := liftH_done_error h
    exact absurd rfl (editionHandler_err herr)
  rw [if_neg hb5] at h
  by_cases hb6 : t = 5
  · rw [if_pos hb6] at h
    have herr := liftH_done_error h
    exact absurd rfl (updatedateHandler_err herr)
  rw [if_neg hb6] at h
  by_cases hb7 : t = 6
  · rw [if_pos hb7] at h
    have herr := liftH_done_error h
    exact absurd rfl (updateHandler_err herr)
  rw [if_neg hb7] at h
  by_cases hb8 : t = 7
  · rw [if_pos hb8] at h
    have herr := liftH_done_error h
    exact absurd rfl (nativescaleHandler_err herr)
  rw [if_neg hb8] at h
  by_cases hb9 : t = 9
  · rw [if_pos hb9] at h
    have herr := liftH_done_error h
    exact absurd rfl (soundingdatumHandler_err herr)
  rw [if_neg hb9] at h
  by_cases hb10 : t = 8
  · rw [if_pos hb10] at h
    have herr := liftH_done_error h
    exact absurd rfl (skipHandler_err herr)
  rw [if_neg hb10] at h
  by_cases hb11 : t = 100
  · rw [if_pos hb11] at h
    have herr := liftH_done_error h
    exact absurd rfl (extentHandler_err herr)
  rw [if_neg hb11] at h
  by_cases hb12 : t = 98
  · rw [if_pos hb12] at h
    have herr := liftH_done_error h
    exact absurd rfl (skipHandler_err herr)
  rw [if_neg hb12] at h
  by_cases hb13 : t = 99
  · rw [if_pos hb13] at h
    have herr := liftH_done_error h
    exact absurd rfl (skipHandler_err herr)
  rw [if_neg hb13] at h
  by_cases hb14 : t = 64
  · rw [if_pos hb14] at h
    have herr := liftH_done_error h
    exact absurd rfl (featureIdHandler_err herr)
  rw [if_neg hb14] at h
  by_cases hb15 : t = 65
  · rw [if_pos hb15] at h
    have herr := liftH_done_error h
    exact absurd rfl (attributeHandler_err herr)
  rw [if_neg hb15] at h
  by_cases hb16 : t = 80
  · rw [if_pos hb16] at h
    have herr := liftH_done_error h
    exact absurd rfl (pointHandler_err herr)
  rw [if_neg hb16] at h
  by_cases hb17 : t = 82
  · rw [if_pos hb17] at h
    have herr := liftH_done_error h
    exact absurd rfl (areaHandler_err herr)
  rw [if_neg hb17] at h
  by_cases hb18 : t = 84
  · rw [if_pos hb18] at h
    have herr := liftH_done_error h
    exact absurd rfl (skipHandler_err herr)
  rw [if_neg hb18] at h
  by_cases hb19 : t = 81
  · rw [if_pos hb19] at h
    have herr := liftH_done_error h
    exact absurd rfl (lineHandler_err herr)
  rw [if_neg hb19] at h
  by_cases hb20 : t = 83
  · rw [if_pos hb20] at h
    have herr := liftH_done_error h
    exact absurd rfl (multipointHandler_err herr)
  rw [if_neg hb20] at h
  by_cases hb21 : t = 96
  · rw [if_pos hb21] at h
    have herr := liftH_done_error h
    exact absurd rfl (skipHandler_err herr)
  rw [if_neg hb21] at h
  by_cases hb22 : t = 85
  · rw [if_pos hb22] at h
    have herr := liftH_done_error h
    exact absurd rfl (skipHandler_err herr)
  rw [if_neg hb22] at h
  by_cases hb23 : t = 97
  · rw [if_pos hb23] at h
    have herr := liftH_done_error h
    exact absurd rfl (skipHandler_err herr)
  rw [if_neg hb23] at h
  by_cases hb24 : t = 86
  · rw [if_pos hb24] at h
    have herr := liftH_done_error h
    exact absurd rfl (skipHandler_err herr)
  rw [if_neg hb24] at h
  by_cases hb25 : t = 101
  · rw [if_pos hb25] at h
    have herr := liftH_done_error h
    exact absurd rfl (skipHandler_err herr)
  rw [if_neg hb25] at h
  exact Except.noConfusion (StepRes.done.inj h)

/-- The record-type codes `parse_file` recognizes (handles without ending
the stream), in source order. -/
def knownRecordTypes : List Nat :=
  [200, 1, 2, 3, 4, 5, 6, 7, 9, 8, 100, 98, 99, 64, 65,
   80, 82, 84, 81, 83, 96, 85, 97, 86, 101]

/-- A record type of 0 or outside the recognized set ends parsing
successfully with the chart accumulated so far. -/
theorem dispatch_unknown {mem : List Nat} {st : PState} {t : Nat} (len : Nat)
    (rest : List Nat) (h0 : t = 0 ∨ t ∉ knownRecordTypes) :
    dispatch mem st t len rest = .done (.ok st.toChart) := by
  rcases h0 with rfl | hmem
  · delta dispatch
    rw [if_pos rfl]
  · by_cases h0 : t = 0
    · delta dispatch
      rw [if_pos h0]
    · simp only [knownRecordTypes, List.mem_cons, List.not_mem_nil, or_false,
        not_or] at hmem
      obtain ⟨n200, n1, n2, n3, n4, n5, n6, n7, n9, n8, n100, n98, n99, n64,
        n65, n80, n82, n84, n81, n83, n96, n85, n97, n86, n101⟩ := hmem
      delta dispatch
      rw [if_neg h0, if_neg n200, if_neg n1, if_neg n2, if_neg n3, if_neg n4,
        if_neg n5, if_neg n6, if_neg n7, if_neg n9, if_neg n8, if_neg n100,
        if_neg n98, if_neg n99, if_neg n64, if_neg n65, if_neg n80,
        if_neg n82, if_neg n84, if_neg n81, if_neg n83, if_neg n96,
        if_neg n85, if_neg n97, if_neg n86, if_neg n101]

theorem step_next_inv {mem : List Nat} {st : PState} {s : List Nat}
    {st' : PState} {s' : List Nat} (h : step mem st s = .next st' s') :
    ∃ hdr rest, readExact 6 s = some (hdr, rest) ∧
      dispatch mem st (u16At hdr 0) (u32At hdr 2) rest = .next st' s' := by
  unfold step at h
  cases hr : readExact 6 s with
  | none =>
    rw [hr] at h
    exact StepRes.noConfusion h
  | some p =>
    obtain ⟨hdr, rest⟩ := p
    rw [hr] at h
    exact ⟨hdr, rest, rfl, h⟩

theorem step_uv {mem : List Nat} {st : PState} {s : List Nat}
    (h : step mem st s = .done (.error .unsupportedVersion)) :
    ∃ hdr rest, readExact 6 s = some (hdr, rest) ∧ u16At hdr 0 = 1 ∧
      6 ≤ u32At hdr 2 ∧ u32At hdr 2 < 16 ∧
      ∃ b rest', readE 2 rest = .ok (b, rest') ∧ u16At b 0 < 201 := by
  unfold step at h
  cases hr : readExact 6 s with
  | none =>
    rw [hr] at h
    exact Except.noConfusion (StepRes.done.inj h)
  | some p =>
    obtain ⟨hdr, rest⟩ := p
    rw [hr] at h
    obtain ⟨ht, h6, h16, _, b, rest', hread, hver⟩ := dispatch_uv h
    exact ⟨hdr, rest, rfl, ht, h6, h16, b, rest', hread, hver⟩

/-- Loop reachability: the states and stream positions the record loop can
step through from a starting configuration. -/
inductive Reaches (mem : List Nat) :
    PState → List Nat → PState → List Nat → Prop where
  | refl (st : PState) (s : List Nat) : Reaches mem st s st s
  | tail {st : PState} {s : List Nat} {st' : PState} {s' : List Nat}
      {st'' : PState} {s'' : List Nat}
      (h1 : step mem st s = .next st' s')
      (h2 : Reaches mem st' s' st'' s'') : Reaches mem st s st'' s''

/-- Any error outcome of the loop comes from one reachable configuration
whose record ends the loop with exactly that error. -/
theorem parseLoop_error {mem : List Nat} {fuel : Nat} {st : PState}
    {s : List Nat} {e : PErr} (h : parseLoop mem fuel st s = .error e) :
    ∃ st' s', Reaches mem st s st' s' ∧ step mem st' s' = .done (.error e) := by
  induction fuel generalizing st s with
  | zero => simp [parseLoop] at h
  | succ fuel ih =>
    unfold parseLoop at h
    cases hstep : step mem st s with
    | done r =>
      rw [hstep] at h
      dsimp only at h
      exact ⟨st, s, Reaches.refl st s, by rw [hstep, h]⟩
    | next st2 s2 =>
      rw [hstep] at h
      dsimp only at h
      obtain ⟨st', s', hr, hs⟩ := ih h
      exact ⟨st', s', Reaches.tail hstep hr, hs⟩

/-- A record error ends the loop immediately with that error as the parse
result of the model. -/
theorem parseLoop_of_step_error {mem : List Nat} {fuel : Nat} {st : PState}
    {s : List Nat} {e : PErr} (h : step mem st s = .done (.error e)) :
    parseLoop mem (fuel + 1) st s = .error e := by
  unfold parseLoop
  rw [h]

/-- The chain-insertion rule as the specification words it: first look for
any chain whose last tuple's end-node matches the element's start-node
(append wins across all chains), and only if no chain end-matches look for
a chain whose first tuple's start-node matches the element's end-node
(prepend). This is the claimed rule, written out to be compared with the
source's `connectInsert`. -/
def specAppendInsert (e : LineElement) :
    List (List LineElement) → Option (List (List LineElement))
  | [] => none
  | c :: cs =>
    if appendMatch c e then some ((c ++ [e]) :: cs)
    else
      match specAppendInsert e cs with
      | some cs' => some (c :: cs')
      | none => none

/-- Prepend pass of the specification's wording (searched only when no
chain end-matched). -/
def specPrependInsert (e : LineElement) :
    List (List LineElement) → Option (List (List LineElement))
  | [] => none
  | c :: cs =>
    if prependMatch c e then some ((e :: c) :: cs)
    else
      match specPrependInsert e cs with
      | some cs' => some (c :: cs')
      | none => none

/-- One element processed under the specification's claimed rule. -/
def specConnectStep (acc : List (List LineElement)) (e : LineElement) :
    List (List LineElement) :=
  match specAppendInsert e acc with
  | some acc' => acc'
  | none =>
    match specPrependInsert e acc with
    | some acc' => acc'
    | none => acc ++ [[e]]

/-- Chain building under the specification's claimed rule. -/
def specConnectChains (elements : List LineElement) :
    List (List LineElement) :=
  elements.foldl specConnectStep []

theorem connectInsert_none {e : LineElement} {acc : List (List LineElement)}
    (h : ∀ c ∈ acc, appendMatch c e = false ∧ prependMatch c e = false) :
    connectInsert e acc = none := by
  induction acc with
  | nil => rfl
  | cons c cs ih =>
    have hc := h c (by simp)
    have hrest : ∀ c' ∈ cs, appendMatch c' e = false ∧ prependMatch c' e = false :=
      fun c' hm => h c' (by simp [hm])
    unfold connectInsert
    rw [if_neg (by simp [hc.1]), if_neg (by simp [hc.2]), ih hrest]

theorem connectStep_no_match {e : LineElement} {acc : List (List LineElement)}
    (h : ∀ c ∈ acc, appendMatch c e = false ∧ prependMatch c e = false) :
    connectStep acc e = acc ++ [[e]] := by
  unfold connectStep
  rw [connectInsert_none h]

theorem connectInsert_append {e : LineElement} {pre : List (List LineElement)}
    {c : List LineElement} {post : List (List LineElement)}
    (hpre : ∀ c' ∈ pre, appendMatch c' e = false ∧ prependMatch c' e = false)
    (hc : appendMatch c e = true) :
    connectInsert e (pre ++ c :: post) = some (pre ++ (c ++ [e]) :: post) := by
  induction pre with
  | nil =>
    simp only [List.nil_append]
    unfold connectInsert
    rw [if_pos hc]
  | cons p ps ih =>
    have hp := hpre p (by simp)
    have hrest : ∀ c' ∈ ps, appendMatch c' e = false ∧ prependMatch c' e = false :=
      fun c' hm => hpre c' (by simp [hm])
    simp only [List.cons_append]
    unfold connectInsert
    rw [if_neg (by simp [hp.1]), if_neg (by simp [hp.2]), ih hrest]

theorem connectStep_append {e : LineElement} {pre : List (List LineElement)}
    {c : List LineElement} {post : List (List LineElement)}
    (hpre : ∀ c' ∈ pre, appendMatch c' e = false ∧ prependMatch c' e = false)
    (hc : appendMatch c e = true) :
    connectStep (pre ++ c :: post) e = pre ++ (c ++ [e]) :: post := by
  unfold connectStep
  rw [connectInsert_append hpre hc]

theorem connectInsert_prepend {e : LineElement} {pre : List (List LineElement)}
    {c : List LineElement} {post : List (List LineElement)}
    (hpre : ∀ c' ∈ pre, appendMatch c' e = false ∧ prependMatch c' e = false)
    (hca : appendMatch c e = false) (hcp : prependMatch c e = true) :
    connectInsert e (pre ++ c :: post) = some (pre ++ (e :: c) :: post) := by
  induction pre with
  | nil =>
    simp only [List.nil_append]
    unfold connectInsert
    rw [if_neg (by simp [hca]), if_pos hcp]
  | cons p ps ih =>
    have hp := hpre p (by simp)
    have hrest : ∀ c' ∈ ps, appendMatch c' e = false ∧ prependMatch c' e = false :=
      fun c' hm => hpre c' (by simp [hm])
    simp only [List.cons_append]
    unfold connectInsert
    rw [if_neg (by simp [hp.1]), if_neg (by simp [hp.2]), ih hrest]

theorem connectStep_prepend {e : LineElement} {pre : List (List LineElement)}
    {c : List LineElement} {post : List (List LineElement)}
    (hpre : ∀ c' ∈ pre, appendMatch c' e = false ∧ prependMatch c' e = false)
    (hca : appendMatch c e = false) (hcp : prependMatch c e = true) :
    connectStep (pre ++ c :: post) e = pre ++ (e :: c) :: post := by
  unfold connectStep
  rw [connectInsert_prepend hpre hca hcp]

/-- The feature-type codes with a named arm in the type-code table. -/
def knownS57TypeCodes : List Nat :=
  [0, 1, 2, 3, 4, 5, 6, 7, 8, 9, 10, 11, 12, 13, 14, 15, 16, 17, 18, 19,
   20, 21, 22, 23, 24, 25, 26, 27, 28, 29, 30, 31, 32, 33, 34, 35, 36,
   37, 38, 39, 40, 41, 42, 43, 44, 45, 46, 47, 48, 49, 50, 51, 52, 53,
   54, 55, 56, 57, 58, 59, 60, 61, 62, 63, 64, 65, 66, 67, 68, 69, 70,
   71, 72, 73, 74, 75, 76, 77, 78, 79, 80, 81, 82, 83, 84, 85, 86, 87,
   88, 89, 90, 91, 92, 93, 94, 95, 96, 97, 98, 99, 100, 101, 102, 103,
   104, 105, 106, 107, 108, 109, 110, 111, 112, 113, 114, 115, 116, 117,
   118, 119, 120, 121, 122, 123, 124, 125, 126, 127, 128, 129, 130, 131,
   132, 133, 134, 135, 136, 160, 137, 138, 139, 140, 141, 142, 143, 144,
   145, 146, 147, 148, 149, 150, 151, 152, 153, 154, 155, 156, 157, 158,
   159, 300, 301, 302, 303, 304, 305, 306, 307, 308, 309, 310, 311, 312,
   400, 401, 402, 500, 501, 502, 503, 504]

set_option maxRecDepth 8000 in
set_option maxHeartbeats 2000000 in
/-- Any code outside the table resolves to the Unknown fallback. -/
theorem fromTypeCode_fallback (c : Nat) (h : c ∉ knownS57TypeCodes) :
    S57Type.fromTypeCode c = S57Type.Unknown := by
  simp only [knownS57TypeCodes, List.mem_cons, List.not_mem_nil, or_false,
    not_or] at h
  obtain ⟨n0, n1, n2, n3, n4, n5, n6, n7, n8, n9, n10, n11, n12, n13, n14,
    n15, n16, n17, n18, n19, n20, n21, n22, n23, n24, n25, n26, n27, n28,
    n29, n30, n31, n32, n33, n34, n35, n36, n37, n38, n39, n40, n41, n42,
    n43, n44, n45, n46, n47, n48, n49, n50, n51, n52, n53, n54, n55, n56,
    n57, n58, n59, n60, n61, n62, n63, n64, n65, n66, n67, n68, n69, n70,
    n71, n72, n73, n74, n75, n76, n77, n78, n79, n80, n81, n82, n83, n84,
    n85, n86, n87, n88, n89, n90, n91, n92, n93, n94, n95, n96, n97, n98,
    n99, n100, n101, n102, n103, n104, n105, n106, n107, n108, n109, n110,
    n111, n112, n113, n114, n115, n116, n117, n118, n119, n120, n121,
    n122, n123, n124, n125, n126, n127, n128, n129, n130, n131, n132,
    n133, n134, n135, n136, n137, n138, n139, n140, n141, n142, n143,
    n144, n145, n146, n147, n148, n149, n150, n151, n152, n153, n154,
    n155, n156, n157, n158, n159, n160, n161, n162, n163, n164, n165,
    n166, n167, n168, n169, n170, n171, n172, n173, n174, n175, n176,
    n177, n178, n179, n180, n181⟩ := h
  delta S57Type.fromTypeCode
  rw [if_neg n0, if_neg n1, if_neg n2, if_neg n3, if_neg n4, if_neg n5,
    if_neg n6, if_neg n7, if_neg n8, if_neg n9, if_neg n10, if_neg n11,
    if_neg n12, if_neg n13, if_neg n14, if_neg n15, if_neg n16, if_neg
    n17, if_neg n18, if_neg n19, if_neg n20, if_neg n21, if_neg n22,
    if_neg n23, if_neg n24, if_neg n25, if_neg n26, if_neg n27, if_neg
    n28, if_neg n29, if_neg n30, if_neg n31, if_neg n32, if_neg n33,
    if_neg n34, if_neg n35, if_neg n36, if_neg n37, if_neg n38, if_neg
    n39, if_neg n40, if_neg n41, if_neg n42, if_neg n43, if_neg n44,
    if_neg n45, if_neg n46, if_neg n47, if_neg n48, if_neg n49, if_neg
    n50, if_neg n51, if_neg n52, if_neg n53, if_neg n54, if_neg n55,
    if_neg n56, if_neg n57, if_neg n58, if_neg n59, if_neg n60, if_neg
    n61, if_neg n62, if_neg n63, if_neg n64, if_neg n65, if_neg n66,
    if_neg n67, if_neg n68, if_neg n69, if_neg n70, if_neg n71, if_neg
    n72, if_neg n73, if_neg n74, if_neg n75, if_neg n76, if_neg n77,
    if_neg n78, if_neg n79, if_neg n80, if_neg n81, if_neg n82, if_neg
    n83, if_neg n84, if_neg n85, if_neg n86, if_neg n87, if_neg n88,
    if_neg n89, if_neg n90, if_neg n91, if_neg n92, if_neg n93, if_neg
    n94, if_neg n95, if_neg n96, if_neg n97, if_neg n98, if_neg n99,
    if_neg n100, if_neg n101, if_neg n102, if_neg n103, if_neg n104,
    if_neg n105, if_neg n106, if_neg n107, if_neg n108, if_neg n109,
    if_neg n110, if_neg n111, if_neg n112, if_neg n113, if_neg n114,
    if_neg n115, if_neg n116, if_neg n117, if_neg n118, if_neg n119,
    if_neg n120, if_neg n121, if_neg n122, if_neg n123, if_neg n124,
    if_neg n125, if_neg n126, if_neg n127, if_neg n128, if_neg n129,
    if_neg n130, if_neg n131, if_neg n132, if_neg n133, if_neg n134,
    if_neg n135, if_neg n136, if_neg n137, if_neg n138, if_neg n139,
    if_neg n140, if_neg n141, if_neg n142, if_neg n143, if_neg n144,
    if_neg n145, if_neg n146, if_neg n147, if_neg n148, if_neg n149,
    if_neg n150, if_neg n151, if_neg n152, if_neg n153, if_neg n154,
    if_neg n155, if_neg n156, if_neg n157, if_neg n158, if_neg n159,
    if_neg n160, if_neg n161, if_neg n162, if_neg n163, if_neg n164,
    if_neg n165, if_neg n166, if_neg n167, if_neg n168, if_neg n169,
    if_neg n170, if_neg n171, if_neg n172, if_neg n173, if_neg n174,
    if_neg n175, if_neg n176, if_neg n177, if_neg n178, if_neg n179,
    if_neg n180, if_neg n181]

/-- One triangle primitive of an Area record's tessellation section, used
to describe well-formed payloads in the statements below: a 1-byte
primitive-kind tag, the 4-byte vertex count, the 32-byte bounding box and
the vertex count times two 32-bit floats. -/
structure TriPrim where
  tag : Nat
  nvert : Nat
  bbox : List Nat
  verts : List Nat

/-- The on-wire bytes of one tessellation primitive. -/
def TriPrim.bytes (p : TriPrim) : List Nat :=
  [p.tag] ++ encLE 4 p.nvert ++ p.bbox ++ p.verts

/-- Well-formedness of a primitive description: the bounding box is 32
bytes, the vertex data is nvert × 2 × 4 bytes, and the count fits in 32
bits. -/
def TriPrim.wf (p : TriPrim) : Prop :=
  p.bbox.length = 32 ∧ p.verts.length = 8 * p.nvert ∧ p.nvert < 4294967296

/-- Concatenated bytes of a tessellation section. -/
def triBytes (ps : List TriPrim) : List Nat := (ps.map TriPrim.bytes).flatten

theorem TriPrim.bytes_length {p : TriPrim} (h : p.wf) :
    p.bytes.length = 37 + 8 * p.nvert := by
  obtain ⟨hb, hv, _⟩ := h
  simp [TriPrim.bytes, encLE_length, hb, hv]
  omega

/-- The tessellation-skipping loop walks exactly over a well-formed
tessellation section: starting at the section, after one pass per
primitive the cursor sits just past the section. -/
theorem triLoop_spec (ps : List TriPrim) (hwf : ∀ p ∈ ps, p.wf) :
    ∀ (pre tail : List Nat),
      triLoop (pre ++ (triBytes ps ++ tail)) ps.length pre.length =
        .ok (pre.length + (triBytes ps).length) := by
  induction ps with
  | nil => intro pre tail; simp [triBytes, triLoop]
  | cons p ps ih =>
    intro pre tail
    have hp := hwf p (by simp)
    have hps : ∀ q ∈ ps, q.wf := fun q hq => hwf q (by simp [hq])
    obtain ⟨hbb, hvl, hnv⟩ := hp
    have hblen : p.bytes.length = 37 + 8 * p.nvert :=
      TriPrim.bytes_length ⟨hbb, hvl, hnv⟩
    have hbytes : triBytes (p :: ps) = p.bytes ++ triBytes ps := by
      simp [triBytes]
    rw [hbytes]
    have hassoc : pre ++ ((p.bytes ++ triBytes ps) ++ tail) =
        (pre ++ [p.tag]) ++
          (encLE 4 p.nvert ++ (p.bbox ++ (p.verts ++ (triBytes ps ++ tail)))) := by
      simp [TriPrim.bytes, List.append_assoc]
    have hcond : pre.length + 1 + 4 ≤
        (pre ++ ((p.bytes ++ triBytes ps) ++ tail)).length := by
      simp [List.length_append, hblen]
      omega
    have hval : u32At (pre ++ ((p.bytes ++ triBytes ps) ++ tail))
        (pre.length + 1) = p.nvert := by
      have hl : (pre ++ [p.tag]).length = pre.length + 1 := by simp
      have := u32At_append_enc (pre ++ [p.tag]) p.nvert
        (p.bbox ++ (p.verts ++ (triBytes ps ++ tail))) hnv
      rw [hl] at this
      rw [hassoc]
      exact this
    simp only [triLoop]
    rw [if_pos hcond, hval]
    have hpos : pre.length + 1 + 4 + 32 + p.nvert * 8 =
        (pre ++ p.bytes).length := by
      simp [List.length_append, hblen]
      omega
    have hpl : pre ++ ((p.bytes ++ triBytes ps) ++ tail) =
        (pre ++ p.bytes) ++ (triBytes ps ++ tail) := by
      simp [List.append_assoc]
    rw [hpos, hpl, ih hps (pre ++ p.bytes) tail]
    have : (pre ++ p.bytes).length + (triBytes ps).length =
        pre.length + (p.bytes ++ triBytes ps).length := by
      simp [List.length_append]
      omega
    rw [this]

/-- A well-formed Area record payload as the claim describes it: the
44-byte fixed header (32 bytes of extent, then contour count,
triangle-primitive count and edge-vector count), `contour count` 4-byte
contour-length markers, the tessellation section, and the trailing
edge-tuple bytes. -/
def areaPayload (ext32 : List Nat) (ccount ev : Nat) (contourB : List Nat)
    (ps : List TriPrim) (tail : List Nat) : List Nat :=
  ext32 ++ encLE 4 ccount ++ encLE 4 ps.length ++ encLE 4 ev ++
    contourB ++ triBytes ps ++ tail

/-- The Area geometry handler on a payload of exactly the claimed shape:
the fixed header is decoded, the contour markers and the tessellation
section are skipped in order, and the trailing bytes are the edge-tuple
array — stored on the current feature when they divide evenly into
16-byte tuples, a fatal assertion failure otherwise. -/
theorem areaHandler_spec (st : PState) (ext32 contourB tail rest' : List Nat)
    (ccount ev : Nat) (ps : List TriPrim)
    (h32 : ext32.length = 32) (hcb : contourB.length = 4 * ccount)
    (hc : ccount < 4294967296) (hp : ps.length < 4294967296)
    (hwf : ∀ p ∈ ps, p.wf) :
    areaHandler st (6 + (areaPayload ext32 ccount ev contourB ps tail).length)
        (areaPayload ext32 ccount ev contourB ps tail ++ rest') =
      (if tail.length % 16 ≠ 0 then .error .assertFail
       else .ok (st.updateCurrent (fun s =>
              s.set_polygon_geometry (decodeLineElements tail)), rest')) := by
  have hP : areaPayload ext32 ccount ev contourB ps tail =
      (ext32 ++ encLE 4 ccount ++ encLE 4 ps.length ++ encLE 4 ev) ++
        (contourB ++ (triBytes ps ++ tail)) := by
    simp [areaPayload, List.append_assoc]
  have hhdrlen : (ext32 ++ encLE 4 ccount ++ encLE 4 ps.length ++ encLE 4 ev).length = 44 := by
    simp [List.length_append, encLE_length, h32]
  have hsub : usizeSub (6 + (areaPayload ext32 ccount ev contourB ps tail).length) 6 =
      .ok (areaPayload ext32 ccount ev contourB ps tail).length := by
    unfold usizeSub
    rw [if_pos (by omega)]
    congr 1
    omega
  have hre : readE (areaPayload ext32 ccount ev contourB ps tail).length
      (areaPayload ext32 ccount ev contourB ps tail ++ rest') =
      .ok (areaPayload ext32 ccount ev contourB ps tail, rest') :=
    readE_append _ _
  have hre44 : readE 44 (areaPayload ext32 ccount ev contourB ps tail) =
      .ok (ext32 ++ encLE 4 ccount ++ encLE 4 ps.length ++ encLE 4 ev,
           contourB ++ (triBytes ps ++ tail)) := by
    rw [hP, ← hhdrlen]
    exact readE_append _ _
  have hcv : u32At (ext32 ++ encLE 4 ccount ++ encLE 4 ps.length ++ encLE 4 ev) 32 = ccount := by
    have hsh : ext32 ++ encLE 4 ccount ++ encLE 4 ps.length ++ encLE 4 ev =
        ext32 ++ (encLE 4 ccount ++ (encLE 4 ps.length ++ encLE 4 ev)) := by
      simp [List.append_assoc]
    have := u32At_append_enc ext32 ccount (encLE 4 ps.length ++ encLE 4 ev) hc
    rw [h32] at this
    rw [hsh]
    exact this
  have htv : u32At (ext32 ++ encLE 4 ccount ++ encLE 4 ps.length ++ encLE 4 ev) 36 = ps.length := by
    have hsh : ext32 ++ encLE 4 ccount ++ encLE 4 ps.length ++ encLE 4 ev =
        (ext32 ++ encLE 4 ccount) ++ (encLE 4 ps.length ++ encLE 4 ev) := by
      simp [List.append_assoc]
    have := u32At_append_enc (ext32 ++ encLE 4 ccount) ps.length (encLE 4 ev) hp
    rw [show (ext32 ++ encLE 4 ccount).length = 36 by
      simp [List.length_append, encLE_length, h32]] at this
    rw [hsh]
    exact this
  have hprelen : ((ext32 ++ encLE 4 ccount ++ encLE 4 ps.length ++ encLE 4 ev) ++ contourB).length
      = 44 + ccount * 4 := by
    simp [List.length_append, encLE_length, h32, hcb]
    omega
  have htri : triLoop (areaPayload ext32 ccount ev contourB ps tail) ps.length
      (44 + ccount * 4) =
      .ok (44 + ccount * 4 + (triBytes ps).length) := by
    have hP2 : areaPayload ext32 ccount ev contourB ps tail =
        ((ext32 ++ encLE 4 ccount ++ encLE 4 ps.length ++ encLE 4 ev) ++ contourB) ++
          (triBytes ps ++ tail) := by
      simp [areaPayload, List.append_assoc]
    have := triLoop_spec ps hwf
      ((ext32 ++ encLE 4 ccount ++ encLE 4 ps.length ++ encLE 4 ev) ++ contourB) tail
    rw [hprelen] at this
    rw [hP2]
    exact this
  have hPlen : (areaPayload ext32 ccount ev contourB ps tail).length =
      44 + ccount * 4 + (triBytes ps).length + tail.length := by
    simp [areaPayload, List.length_append, encLE_length, h32, hcb]
    omega
  have hsub2 : usizeSub (areaPayload ext32 ccount ev contourB ps tail).length
      (44 + ccount * 4 + (triBytes ps).length) = .ok tail.length := by
    unfold usizeSub
    rw [if_pos (by omega)]
    congr 1
    omega
  have hbytes : bytesAt (areaPayload ext32 ccount ev contourB ps tail)
      (44 + ccount * 4 + (triBytes ps).length) tail.length = tail := by
    have hP3 : areaPayload ext32 ccount ev contourB ps tail =
        ((ext32 ++ encLE 4 ccount ++ encLE 4 ps.length ++ encLE 4 ev) ++ contourB ++
          triBytes ps) ++ tail := by
      simp [areaPayload, List.append_assoc]
    have hplen2 : ((ext32 ++ encLE 4 ccount ++ encLE 4 ps.length ++ encLE 4 ev) ++ contourB ++
        triBytes ps).length = 44 + ccount * 4 + (triBytes ps).length := by
      simp [List.length_append, encLE_length, h32, hcb]
      omega
    rw [hP3, ← hplen2, bytesAt_append]
    exact List.take_length tail
  unfold areaHandler
  rw [hsub]
  dsimp only
  rw [hre]
  dsimp only
  rw [hre44]
  dsimp only
  rw [hcv, htv, htri]
  dsimp only
  rw [hsub2]
  dsimp only
  rw [hbytes]

theorem lookupAttribute_insert (m : List (S57Attribute × AttributeValue))
    (k : S57Attribute) (v : AttributeValue) :
    lookupAttribute (insertAttribute m k v) k = some v := by
  induction m with
  | nil => simp [insertAttribute, lookupAttribute]
  | cons p t ih =>
    obtain ⟨k', v'⟩ := p
    unfold insertAttribute
    split
    · simp [lookupAttribute]
    · next hne =>
      unfold lookupAttribute
      rw [if_neg hne]
      exact ih

/-- The value stored for attribute `a` on the current (most recently
identified) feature. -/
def currentAttr (st : PState) (a : S57Attribute) : Option AttributeValue :=
  match st.s57Rev with
  | c :: _ => lookupAttribute c.attributes a
  | [] => none

/-- Extract of the first decoded feature's stored value for attribute `a`
out of a parse result (used to observe the parser on concrete streams). -/
def firstFeatureAttr (r : Except PErr ChartFile) (a : S57Attribute) :
    Option AttributeValue :=
  match r with
  | .ok chart =>
    match chart.s57 with
    | f :: _ => lookupAttribute f.attributes a
    | [] => none
  | .error _ => none

/-- Extract of the first decoded feature's multipoint geometry out of a
parse result. -/
def firstFeatureSoundings (r : Except PErr ChartFile) : List SoundingPoint :=
  match r with
  | .ok chart =>
    match chart.s57 with
    | f :: _ => f.multi_point_geometry
    | [] => []
  | .error _ => []

/-- C1: for every input byte stream, when the parser reads a record header
whose type code is 0 or any code it does not recognize, parsing stops at
that point and returns Ok with the ChartFile accumulated so far (all
metadata, extent and features decoded from earlier records, for any loop
state), not an error. -/
theorem c1_unrecognized_record_type_ends_parse_ok
    (mem : List Nat) (fuel : Nat) (st : PState) (t len : Nat)
    (rest : List Nat) (ht : t < 65536)
    (hunk : t = 0 ∨ t ∉ knownRecordTypes) :
    parseLoop mem (fuel + 1) st (recHeader t len ++ rest) = .ok st.toChart := by
  have hstep : step mem st (recHeader t len ++ rest) = .done (.ok st.toChart) := by
    unfold step
    rw [readExact_header]
    dsimp only
    rw [u16At_recHeader t len ht]
    exact dispatch_unknown _ _ hunk
  unfold parseLoop
  rw [hstep]

theorem c1_unrecognized_record_type_ends_parse_ok_witness :
    parseLoop [] 1 initState (recHeader 300 6 ++ [9, 9, 9]) =
      .ok initState.toChart :=
  c1_unrecognized_record_type_ends_parse_ok [] 0 initState 300 6 [9, 9, 9]
    (by decide) (Or.inr (by decide))

/-- C2 counterexample: on the concrete input X(start 7, end 9),
Y(start 1, end 5), E(start 5, end 7), the source's assembler prepends E to
the first chain (whose first tuple X start-matches E's end), while the
claimed rule — append to the first chain whose last tuple's end matches
E's start, trying every chain, before considering any prepend — would
append E to the second chain; the two groupings differ, so the claimed
rule is not the implemented one. -/
theorem c2_chain_rule_counterexample :
    connectChains
        [⟨7, 0, 9, Direction.Forward⟩, ⟨1, 0, 5, Direction.Forward⟩,
         ⟨5, 0, 7, Direction.Forward⟩] =
      [[⟨5, 0, 7, Direction.Forward⟩, ⟨7, 0, 9, Direction.Forward⟩],
       [⟨1, 0, 5, Direction.Forward⟩]] ∧
    specConnectChains
        [⟨7, 0, 9, Direction.Forward⟩, ⟨1, 0, 5, Direction.Forward⟩,
         ⟨5, 0, 7, Direction.Forward⟩] =
      [[⟨7, 0, 9, Direction.Forward⟩],
       [⟨1, 0, 5, Direction.Forward⟩, ⟨5, 0, 7, Direction.Forward⟩]] ∧
    connectChains
        [⟨7, 0, 9, Direction.Forward⟩, ⟨1, 0, 5, Direction.Forward⟩,
         ⟨5, 0, 7, Direction.Forward⟩] ≠
      specConnectChains
        [⟨7, 0, 9, Direction.Forward⟩, ⟨1, 0, 5, Direction.Forward⟩,
         ⟨5, 0, 7, Direction.Forward⟩] :=
  ⟨by decide, by decide, by decide⟩

/-- C2 (amended): the assembler scans existing chains in creation order
and gives the tuple to the first chain passing either the append test
(tuple start = chain last end) or, failing that for that same chain, the
prepend test (tuple end = chain first start) — append is preferred per
chain, not across all chains; with no match the tuple starts a new chain
at the end of the list.  The concrete input A(1,2), B(2,3), C(5,6) yields
the two chains [A,B] and [C], and the assembler emits one coordinate
sequence per chain in chain-creation order. -/
theorem c2_chain_rule_amended :
    (∀ (e : LineElement) (acc : List (List LineElement)),
       (∀ c ∈ acc, appendMatch c e = false ∧ prependMatch c e = false) →
       connectStep acc e = acc ++ [[e]]) ∧
    (∀ (e : LineElement) (pre : List (List LineElement))
       (c : List LineElement) (post : List (List LineElement)),
       (∀ c' ∈ pre, appendMatch c' e = false ∧ prependMatch c' e = false) →
       appendMatch c e = true →
       connectStep (pre ++ c :: post) e = pre ++ (c ++ [e]) :: post) ∧
    (∀ (e : LineElement) (pre : List (List LineElement))
       (c : List LineElement) (post : List (List LineElement)),
       (∀ c' ∈ pre, appendMatch c' e = false ∧ prependMatch c' e = false) →
       appendMatch c e = false → prependMatch c e = true →
       connectStep (pre ++ c :: post) e = pre ++ (e :: c) :: post) ∧
    connectChains
        [⟨1, 0, 2, Direction.Forward⟩, ⟨2, 0, 3, Direction.Forward⟩,
         ⟨5, 0, 6, Direction.Forward⟩] =
      [[⟨1, 0, 2, Direction.Forward⟩, ⟨2, 0, 3, Direction.Forward⟩],
       [⟨5, 0, 6, Direction.Forward⟩]] ∧
    (∀ (elements : List LineElement)
       (ve : Nat → Option VectorEdge) (cn : Nat → Option ConnectedNode),
       buildGeometries elements ve cn =
         (connectChains elements).map (materializeChain ve cn)) :=
  ⟨fun _ _ h => connectStep_no_match h,
   fun _ _ _ _ hpre hc => connectStep_append hpre hc,
   fun _ _ _ _ hpre hca hcp => connectStep_prepend hpre hca hcp,
   by decide,
   fun _ _ _ => rfl⟩

theorem c2_chain_rule_amended_witness :
    connectStep [] ⟨1, 0, 2, Direction.Forward⟩ =
        [[⟨1, 0, 2, Direction.Forward⟩]] ∧
    connectStep [[⟨1, 0, 2, Direction.Forward⟩]] ⟨2, 0, 3, Direction.Forward⟩ =
        [[⟨1, 0, 2, Direction.Forward⟩, ⟨2, 0, 3, Direction.Forward⟩]] ∧
    connectStep [[⟨9, 0, 4, Direction.Forward⟩]] ⟨2, 0, 9, Direction.Forward⟩ =
        [[⟨2, 0, 9, Direction.Forward⟩, ⟨9, 0, 4, Direction.Forward⟩]] :=
  ⟨c2_chain_rule_amended.1 _ [] (by simp),
   c2_chain_rule_amended.2.1 _ [] _ [] (by simp) (by decide),
   c2_chain_rule_amended.2.2.1 _ [] _ [] (by simp) (by decide) (by decide)⟩

/-- The concrete stream of claim C3's failing input: a
Feature-Identification record (attribute-type table code 1), then an
Attribute record with known attribute-type code 1, value-type discriminant
4 and declared payload of 5 bytes whose text region [65, 66] holds no zero
byte at or after the fixed offset 3. -/
def c3stream : List Nat :=
  recHeader 64 11 ++ [1, 0, 1, 0, 1] ++ recHeader 65 11 ++ [1, 0, 4, 65, 66]

/-- C3: the claim's safety clause fails on the code.  For the same record
bytes, the stored text differs depending on the ambient memory beyond the
declared 5-byte payload buffer: with a zero byte right after the buffer
the decoder stores "AB", while with memory bytes [67, 0] there it stores
"ABC" — the zero-terminated scan started at the fixed offset continues
past the buffer's end instead of stopping there. -/
theorem c3_text_scan_reads_outside_buffer :
    firstFeatureAttr (parse [0] c3stream) S57Attribute.AGENCY =
        some (AttributeValue.String [65, 66]) ∧
    firstFeatureAttr (parse [67, 0] c3stream) S57Attribute.AGENCY =
        some (AttributeValue.String [65, 66, 67]) ∧
    parse [0] c3stream ≠ parse [67, 0] c3stream :=
  ⟨by decide, by decide, by decide⟩

/-- The concrete stream of claim C5's failing input: a
Feature-Identification record, then a Multipoint geometry record with
point count 1 whose payload carries the full 3 × 4 bytes of one
(easting, northing, depth) float triple. -/
def c5stream : List Nat :=
  recHeader 64 11 ++ [42, 0, 1, 0, 1] ++ recHeader 83 54 ++
    List.replicate 32 0 ++ encLE 4 1 ++
    [1, 2, 3, 4] ++ [5, 6, 7, 8] ++ [9, 10, 11, 12]

/-- C5: the multipoint decoder does not read the declared n × 3 floats
from the payload.  It allocates and reads only 4·n bytes
(`size_of::<f32>() * point_count`) and then reinterprets the buffer as
3·n floats, so for the one-point stream above the stored northing and
depth come from the ambient memory beyond the allocation: the stored
geometry differs between two runs that differ only in that memory, and
never equals the point actually encoded in the payload bytes. -/
theorem c5_multipoint_reads_outside_payload :
    firstFeatureSoundings (parse (List.replicate 8 0) c5stream) ≠
      firstFeatureSoundings (parse (255 :: List.replicate 7 0) c5stream) ∧
    firstFeatureSoundings (parse (List.replicate 8 0) c5stream) ≠
      [{ eastingBits := u32At [1, 2, 3, 4, 5, 6, 7, 8, 9, 10, 11, 12] 0
         northingBits := u32At [1, 2, 3, 4, 5, 6, 7, 8, 9, 10, 11, 12] 4
         depthBits := u32At [1, 2, 3, 4, 5, 6, 7, 8, 9, 10, 11, 12] 8 }] :=
  ⟨by decide, by decide⟩

/-- C4: for every Attribute record whose attribute-type code resolves to a
known attribute, the stored value is the tagged union over {unsigned
32-bit integer, 64-bit float, text}: discriminant 0 stores the 4 bytes
following the discriminant region as an unsigned 32-bit integer,
discriminant 2 stores the following 8 bytes as a 64-bit float (by bit
pattern), any discriminant other than 0, 2 or 4 stores no value, and an
unrecognized attribute-type code discards the whole record without the
value-type influencing anything. -/
theorem c4_attribute_value_union :
    ∀ (mem : List Nat) (st : PState) (buf : List Nat),
      (S57Attribute.fromTypeCode (u16At (buf ++ mem) 0) = S57Attribute.Unknown →
         attrApply mem st buf = st) ∧
      (S57Attribute.fromTypeCode (u16At (buf ++ mem) 0) ≠ S57Attribute.Unknown →
       st.hasCurrent = true →
       ∀ (c : S57) (fs : List S57), st.s57Rev = c :: fs →
         (u8At (buf ++ mem) 2 = 0 →
            currentAttr (attrApply mem st buf)
                (S57Attribute.fromTypeCode (u16At (buf ++ mem) 0)) =
              some (AttributeValue.UInt32 (u32At (buf ++ mem) 3))) ∧
         (u8At (buf ++ mem) 2 = 2 →
            currentAttr (attrApply mem st buf)
                (S57Attribute.fromTypeCode (u16At (buf ++ mem) 0)) =
              some (AttributeValue.Double (u64At (buf ++ mem) 3)))) ∧
      (u8At (buf ++ mem) 2 ≠ 0 → u8At (buf ++ mem) 2 ≠ 2 →
       u8At (buf ++ mem) 2 ≠ 4 → attrApply mem st buf = st) := by
  intro mem st buf
  refine ⟨?_, ?_, ?_⟩
  · intro hu
    unfold attrApply
    dsimp only
    rw [if_pos hu]
  · intro hne hcur c fs hrev
    constructor
    · intro h0
      unfold attrApply
      dsimp only
      rw [if_neg hne, h0]
      dsimp only
      unfold PState.updateCurrent
      rw [hcur, if_pos rfl, hrev]
      dsimp only
      unfold currentAttr
      dsimp only
      exact lookupAttribute_insert _ _ _
    · intro h2
      unfold attrApply
      dsimp only
      rw [if_neg hne, h2]
      dsimp only
      unfold PState.updateCurrent
      rw [hcur, if_pos rfl, hrev]
      dsimp only
      unfold currentAttr
      dsimp only
      exact lookupAttribute_insert _ _ _
  · intro h0 h2 h4
    unfold attrApply
    dsimp only
    split
    · rfl
    · split
      all_goals first | rfl | simp_all

theorem c4_attribute_value_union_witness :
    currentAttr
        (attrApply [] (initState.pushFeature (S57.fromTypeCode 42))
          [1, 0, 0, 7, 0, 0, 0])
        (S57Attribute.fromTypeCode
          (u16At ([1, 0, 0, 7, 0, 0, 0] ++ []) 0)) =
      some (AttributeValue.UInt32 (u32At ([1, 0, 0, 7, 0, 0, 0] ++ []) 3)) ∧
    attrApply [] (initState.pushFeature (S57.fromTypeCode 42))
        [1, 0, 9, 7, 0, 0, 0] =
      initState.pushFeature (S57.fromTypeCode 42) :=
  ⟨((c4_attribute_value_union [] (initState.pushFeature (S57.fromTypeCode 42))
      [1, 0, 0, 7, 0, 0, 0]).2.1 (by decide) rfl (S57.fromTypeCode 42) []
      rfl).1 (by decide),
   (c4_attribute_value_union [] (initState.pushFeature (S57.fromTypeCode 42))
      [1, 0, 9, 7, 0, 0, 0]).2.2 (by decide) (by decide) (by decide)⟩

/-- C6 (amended): the parser validates that the declared record length —
which includes the 6-byte header, so the payload is 0 to 9 bytes — lies in
[6,16), failing with the header error outside that range and never with it
inside; a Version record whose two-byte payload decodes below 201 fails
with exactly UnsupportedVersion and one decoding to 201 or more succeeds;
and any parse that returns UnsupportedVersion reached a Version record
(type 1) whose declared version was below 201. -/
theorem c6_version_semantics_amended :
    (∀ (st : PState) (len : Nat) (rest : List Nat),
       (len < 6 ∨ 16 ≤ len) →
       versionHandler st len rest = .error .failedParseHeader) ∧
    (∀ (st : PState) (len : Nat) (rest : List Nat) (e : PErr),
       6 ≤ len → len < 16 → versionHandler st len rest = .error e →
       e ≠ .failedParseHeader) ∧
    (∀ (st : PState) (len : Nat) (rest : List Nat) (b rest' : List Nat),
       6 ≤ len → len < 16 → len - 6 = 2 → readE 2 rest = .ok (b, rest') →
       (u16At b 0 < 201 →
          versionHandler st len rest = .error .unsupportedVersion) ∧
       (201 ≤ u16At b 0 → versionHandler st len rest = .ok (st, rest'))) ∧
    (∀ (mem : List Nat) (fuel : Nat) (st : PState) (s : List Nat),
       parseLoop mem fuel st s = .error .unsupportedVersion →
       ∃ st' s' hdr rest b rest2,
         Reaches mem st s st' s' ∧ readExact 6 s' = some (hdr, rest) ∧
         u16At hdr 0 = 1 ∧ readE 2 rest = .ok (b, rest2) ∧
         u16At b 0 < 201) := by
  refine ⟨?_, ?_, ?_, ?_⟩
  · intro st len rest h
    unfold versionHandler
    rw [if_pos h]
  · intro st len rest e h6 h16 herr hcon
    subst hcon
    unfold versionHandler at herr
    rw [if_neg (by omega)] at herr
    split at herr
    · simp at herr
    · split at herr
      · next e2 hread =>
        have := readE_error hread
        simp_all
      · split at herr <;> simp_all
  · intro st len rest b rest' h6 h16 h2b hread
    unfold versionHandler
    rw [if_neg (by omega), if_neg (by omega), hread]
    dsimp only
    constructor
    · intro hlt
      rw [if_pos hlt]
    · intro hge
      rw [if_neg (by omega)]
  · intro mem fuel st s h
    obtain ⟨st', s', hreach, hstep⟩ := parseLoop_error h
    obtain ⟨hdr, rest, hr, ht, _, _, b, rest2, hread, hver⟩ := step_uv hstep
    exact ⟨st', s', hdr, rest, b, rest2, hreach, hr, ht, hread, hver⟩

theorem c6_version_semantics_amended_witness :
    versionHandler initState 5 [] = .error .failedParseHeader ∧
    versionHandler initState 8 (encLE 2 200) = .error .unsupportedVersion ∧
    versionHandler initState 8 (encLE 2 201) = .ok (initState, []) :=
  ⟨c6_version_semantics_amended.1 initState 5 [] (by omega),
   (c6_version_semantics_amended.2.2.1 initState 8 (encLE 2 200)
      (encLE 2 200) [] (by omega) (by omega) (by omega) (by decide)).1
     (by decide),
   (c6_version_semantics_amended.2.2.1 initState 8 (encLE 2 201)
      (encLE 2 201) [] (by omega) (by omega) (by omega) (by decide)).2
     (by decide)⟩

/-- C6 counterexample: a Version record declaring record length 8 — a
declared payload size of 2 bytes, outside the claim's [6,16) — passes the
parser's size validation and the whole parse succeeds, because the code
range-checks the full record length (header included), not the payload
size. -/
theorem c6_payload_size_counterexample :
    parse [] (recHeader 1 8 ++ encLE 2 201) = .ok initState.toChart ∧
    ¬ (6 ≤ 8 - 6 ∧ 8 - 6 < 16) :=
  ⟨by decide, by decide⟩

/-- C7: every Feature-Identification record increases the decoded feature
count by exactly one, the new feature's type is resolved via the
type-code table with Unknown as fallback for unrecognized codes, the new
feature becomes the current one, and every other record processed by the
loop leaves the feature count and all features except the current one
untouched — so the most recent Feature-Identification target is the only
feature any following Attribute or Geometry record can mutate, until the
next Feature-Identification record or the end of the stream. -/
theorem c7_feature_identification :
    (∀ (mem : List Nat) (st : PState) (s : List Nat) (st' : PState)
       (s' : List Nat) (hdr rest : List Nat),
       step mem st s = .next st' s' → readExact 6 s = some (hdr, rest) →
       u16At hdr 0 = 64 →
       ∃ b, readE 5 rest = .ok (b, s') ∧
         st' = st.pushFeature (S57.fromTypeCode (u16At b 0)) ∧
         st'.s57Rev.length = st.s57Rev.length + 1 ∧
         st'.hasCurrent = true ∧
         (S57.fromTypeCode (u16At b 0)).s57_type =
           S57Type.fromTypeCode (u16At b 0)) ∧
    (∀ c, c ∉ knownS57TypeCodes → S57Type.fromTypeCode c = S57Type.Unknown) ∧
    (∀ (mem : List Nat) (st : PState) (s : List Nat) (st' : PState)
       (s' : List Nat) (hdr rest : List Nat),
       step mem st s = .next st' s' → readExact 6 s = some (hdr, rest) →
       u16At hdr 0 ≠ 64 →
       st'.s57Rev.length = st.s57Rev.length ∧
       st'.s57Rev.tail = st.s57Rev.tail ∧
       st'.hasCurrent = st.hasCurrent) := by
  refine ⟨?_, fun c hc => fromTypeCode_fallback c hc, ?_⟩
  · intro mem st s st' s' hdr rest hstep hr ht
    obtain ⟨hdr2, rest2, hr2, hd⟩ := step_next_inv hstep
    rw [hr] at hr2
    injection hr2 with hpair
    injection hpair with hh hrr
    subst hh
    subst hrr
    rw [ht] at hd
    rcases dispatch_next_master hd with ⟨-, b, hread, hst⟩ | ⟨hne, -⟩
    · subst hst
      exact ⟨b, hread, rfl, by simp [PState.pushFeature], rfl, rfl⟩
    · exact absurd rfl hne
  · intro mem st s st' s' hdr rest hstep hr ht
    obtain ⟨hdr2, rest2, hr2, hd⟩ := step_next_inv hstep
    rw [hr] at hr2
    injection hr2 with hpair
    injection hpair with hh hrr
    subst hh
    subst hrr
    rcases dispatch_next_master hd with ⟨ht64, -⟩ | ⟨-, hlen, htail, hcur, -⟩
    · exact absurd ht64 ht
    · exact ⟨hlen, htail, hcur⟩

theorem c7_feature_identification_witness :
    (∃ b, readE 5 [42, 0, 1, 0, 1] = .ok (b, ([] : List Nat)) ∧
       initState.pushFeature (S57.fromTypeCode 42) =
         initState.pushFeature (S57.fromTypeCode (u16At b 0)) ∧
       (initState.pushFeature (S57.fromTypeCode 42)).s57Rev.length =
         initState.s57Rev.length + 1 ∧
       (initState.pushFeature (S57.fromTypeCode 42)).hasCurrent = true ∧
       (S57.fromTypeCode (u16At b 0)).s57_type =
         S57Type.fromTypeCode (u16At b 0)) ∧
    S57Type.fromTypeCode 777 = S57Type.Unknown ∧
    (initState.s57Rev.length = initState.s57Rev.length ∧
     initState.s57Rev.tail = initState.s57Rev.tail ∧
     initState.hasCurrent = initState.hasCurrent) :=
  ⟨c7_feature_identification.1 [] initState
      (recHeader 64 11 ++ [42, 0, 1, 0, 1])
      (initState.pushFeature (S57.fromTypeCode 42)) [] (recHeader 64 11)
      [42, 0, 1, 0, 1] (by decide) (by decide) (by decide),
   c7_feature_identification.2.1 777 (by decide),
   c7_feature_identification.2.2 [] initState (recHeader 8 6) initState []
      (recHeader 8 6) [] (by decide) (by decide) (by decide)⟩

/-- C9: a continuing loop step either appends a fresh feature whose every
geometry slot is empty (a Feature-Identification record — nothing is
reset, a new feature starts empty), or it relates old and new feature
lists pointwise so that every geometry slot not belonging to the record's
own kind is unchanged on every feature: a geometry variant, once set, is
never reset by a record of a different geometry kind, and only a record
of the same kind can replace the stored geometry of that kind. -/
theorem c9_geometry_never_reset :
    ∀ (mem : List Nat) (st : PState) (s : List Nat) (st' : PState)
      (s' : List Nat) (hdr rest : List Nat),
      step mem st s = .next st' s' → readExact 6 s = some (hdr, rest) →
      (u16At hdr 0 = 64 ∧ ∃ b, readE 5 rest = .ok (b, s') ∧
         st'.s57Rev = S57.fromTypeCode (u16At b 0) :: st.s57Rev ∧
         (S57.fromTypeCode (u16At b 0)).point_geometry = none ∧
         (S57.fromTypeCode (u16At b 0)).line_elements = [] ∧
         (S57.fromTypeCode (u16At b 0)).polygon_line_elements = [] ∧
         (S57.fromTypeCode (u16At b 0)).multi_point_geometry = []) ∨
      List.Forall₂ (geomPreserved (u16At hdr 0)) st.s57Rev st'.s57Rev := by
  intro mem st s st' s' hdr rest hstep hr
  obtain ⟨hdr2, rest2, hr2, hd⟩ := step_next_inv hstep
  rw [hr] at hr2
  injection hr2 with hpair
  injection hpair with hh hrr
  subst hh
  subst hrr
  rcases dispatch_next_master hd with ⟨ht, b, hread, hst⟩ | ⟨-, -, -, -, hfa, -⟩
  · subst hst
    exact Or.inl ⟨ht, b, hread, rfl, rfl, rfl, rfl, rfl⟩
  · exact Or.inr hfa

theorem c9_geometry_never_reset_witness :
    (u16At (recHeader 80 22) 0 = 64 ∧ ∃ b,
       readE 5 (List.replicate 16 0) = .ok (b, ([] : List Nat)) ∧
       ((initState.pushFeature (S57.fromTypeCode 42)).updateCurrent
           (fun f => f.set_point_geometry { lat := 0, lon := 0 })).s57Rev =
         S57.fromTypeCode (u16At b 0) ::
           (initState.pushFeature (S57.fromTypeCode 42)).s57Rev ∧
       (S57.fromTypeCode (u16At b 0)).point_geometry = none ∧
       (S57.fromTypeCode (u16At b 0)).line_elements = [] ∧
       (S57.fromTypeCode (u16At b 0)).polygon_line_elements = [] ∧
       (S57.fromTypeCode (u16At b 0)).multi_point_geometry = []) ∨
    List.Forall₂ (geomPreserved (u16At (recHeader 80 22) 0))
      (initState.pushFeature (S57.fromTypeCode 42)).s57Rev
      ((initState.pushFeature (S57.fromTypeCode 42)).updateCurrent
          (fun f => f.set_point_geometry { lat := 0, lon := 0 })).s57Rev :=
  c9_geometry_never_reset [] (initState.pushFeature (S57.fromTypeCode 42))
    (recHeader 80 22 ++ List.replicate 16 0)
    ((initState.pushFeature (S57.fromTypeCode 42)).updateCurrent
        (fun f => f.set_point_geometry { lat := 0, lon := 0 })) []
    (recHeader 80 22) (List.replicate 16 0) (by decide) (by decide)

/-- C8 (amended): for every Area geometry record over a payload of the
claimed shape, the parser skips, in order, contour-count 4-byte contour
markers and then, per triangle primitive, 1 byte of kind tag, the 4-byte
vertex count, the 32-byte bounding box and vertex-count × 2 32-bit
floats; the remaining payload bytes must divide evenly into 16-byte
edge tuples — a non-zero remainder fails the model's fatal size-mismatch
assertion (an `assert_eq!` panic in the source, aborting parsing
immediately, surfaced to the caller by unwinding rather than as an
`io::Result` error value), and on success the remaining bytes become the
current feature's polygon pre-stitch edge-tuple array.  A record error
ends the loop at once with that outcome. -/
theorem c8_area_skip_amended :
    (∀ (st : PState) (ext32 contourB tail rest' : List Nat)
       (ccount ev : Nat) (ps : List TriPrim),
       ext32.length = 32 → contourB.length = 4 * ccount →
       ccount < 4294967296 → ps.length < 4294967296 →
       (∀ p ∈ ps, p.wf) →
       areaHandler st
           (6 + (areaPayload ext32 ccount ev contourB ps tail).length)
           (areaPayload ext32 ccount ev contourB ps tail ++ rest') =
         (if tail.length % 16 ≠ 0 then .error .assertFail
          else .ok (st.updateCurrent (fun s =>
                 s.set_polygon_geometry (decodeLineElements tail)), rest'))) ∧
    PErr.isPanic .assertFail = true ∧
    (∀ (mem : List Nat) (fuel : Nat) (st : PState) (s : List Nat) (e : PErr),
       step mem st s = .done (.error e) →
       parseLoop mem (fuel + 1) st s = .error e) :=
  ⟨fun st ext32 contourB tail rest' ccount ev ps h32 hcb hc hp hwf =>
     areaHandler_spec st ext32 contourB tail rest' ccount ev ps h32 hcb hc
       hp hwf,
   rfl,
   fun _ _ _ _ _ h => parseLoop_of_step_error h⟩

theorem c8_area_skip_amended_witness :
    areaHandler initState
        (6 + (areaPayload (List.replicate 32 0) 0 0 []
                [⟨3, 2, List.replicate 32 0, List.replicate 16 0⟩]
                (List.replicate 16 5)).length)
        (areaPayload (List.replicate 32 0) 0 0 []
            [⟨3, 2, List.replicate 32 0, List.replicate 16 0⟩]
            (List.replicate 16 5) ++ [1, 2, 3]) =
      .ok (initState.updateCurrent (fun s =>
             s.set_polygon_geometry
               (decodeLineElements (List.replicate 16 5))), [1, 2, 3]) := by
  have h := c8_area_skip_amended.1 initState (List.replicate 32 0) []
    (List.replicate 16 5) [1, 2, 3] 0 0
    [⟨3, 2, List.replicate 32 0, List.replicate 16 0⟩]
    (by decide) (by decide) (by decide) (by decide)
    (by intro p hp; simp at hp; subst hp; exact ⟨by decide, by decide, by decide⟩)
  rw [h]
  decide

/-- The concrete stream of claim C8's counterexample: one
Feature-Identification record, then an Area geometry record with zero
contours, zero triangle primitives, and 8 trailing bytes — not a multiple
of the 16-byte edge-tuple size. -/
def c8stream : List Nat :=
  recHeader 64 11 ++ [42, 0, 1, 0, 1] ++
    recHeader 82 58 ++ List.replicate 32 0 ++ encLE 4 0 ++ encLE 4 0 ++
    encLE 4 0 ++ List.replicate 8 7

/-- C8 counterexample: a non-dividing remainder aborts parsing through the
`assert_eq!` runtime assertion — modelled as the panic-kind outcome
`assertFail` — rather than through an error value returned as the
function's `io::Result`; only the genuine `Err` returns (such as the
header validation failure, which is not a panic kind) are delivered as
the parse result. -/
theorem c8_size_mismatch_panic_counterexample :
    parse [] c8stream = .error .assertFail ∧
    PErr.isPanic .assertFail = true ∧
    PErr.isPanic .failedParseHeader = false :=
  ⟨by decide, rfl, rfl⟩

/-- C10 (amended): when an Attribute, Point, Line, Area or Multipoint
record is processed while no Feature-Identification record has been seen
(no current feature) and the record decodes without error, its payload is
still fully consumed — the stream advances exactly past the declared
record length, keeping framing intact — while the parse state is
completely unchanged: no feature is created or modified and no value is
stored, and parsing continues. -/
theorem c10_pre_feature_records_amended :
    ∀ (mem : List Nat) (st : PState) (s : List Nat) (st' : PState)
      (s' : List Nat) (hdr rest : List Nat),
      st.hasCurrent = false →
      step mem st s = .next st' s' → readExact 6 s = some (hdr, rest) →
      (u16At hdr 0 = 65 ∨ u16At hdr 0 = 80 ∨ u16At hdr 0 = 81 ∨
       u16At hdr 0 = 82 ∨ u16At hdr 0 = 83) →
      st' = st ∧ s' = s.drop (u32At hdr 2) := by
  intro mem st s st' s' hdr rest hc hstep hr hmem
  obtain ⟨hdr2, rest2, hr2, hd⟩ := step_next_inv hstep
  rw [hr] at hr2
  injection hr2 with hpair
  injection hpair with hh hrr
  subst hh
  subst hrr
  rcases dispatch_next_master hd with ⟨ht64, -⟩ | ⟨-, -, -, -, -, hclause⟩
  · omega
  · obtain ⟨hst, hle, hdrop⟩ := hclause hc hmem
    refine ⟨hst, ?_⟩
    have hrest : rest = s.drop 6 := (readExact_eq_some hr).2.1
    rw [hdrop, hrest, List.drop_drop]
    congr 1
    omega

theorem c10_pre_feature_records_amended_witness :
    initState = initState ∧
    ([] : List Nat) = (recHeader 80 22 ++ List.replicate 16 0).drop
        (u32At (recHeader 80 22) 2) :=
  c10_pre_feature_records_amended [] initState
    (recHeader 80 22 ++ List.replicate 16 0) initState [] (recHeader 80 22)
    (List.replicate 16 0) rfl (by decide) (by decide) (by decide)

/-- The concrete stream of claim C10's counterexample: a single Area
geometry record — before any Feature-Identification record — whose 8
trailing bytes do not divide into 16-byte edge tuples. -/
def c10stream : List Nat :=
  recHeader 82 58 ++ List.replicate 32 0 ++ encLE 4 0 ++ encLE 4 0 ++
    encLE 4 0 ++ List.replicate 8 7

/-- C10 counterexample: an Attribute/geometry record occurring before any
Feature-Identification record does not always leave parsing running
without error — a malformed Area record aborts parsing with the
size-mismatch assertion even though there is no feature to modify. -/
theorem c10_error_before_feature_counterexample :
    parse [] c10stream = .error .assertFail := by decide

end Oesu
